import Mathlib

/-!
Verification development for the ct-toru call-processing pipeline.

Shallow embedding of the extraction, merge, variation-retry and order-synthesis
logic of `src/gcf/match-customer/main.py` and `src/gcf/create-order/main.py`.
Python dictionaries are modelled as association lists over a JSON-like value
type, Python strings as Lean `String`, and every fallible or external call is
made an explicit input to the embedded function.
-/

/-- A JSON-like Python value: `None`, booleans, strings, integers, and nested
objects (association lists). This is the value type of the dictionaries the
pipeline manipulates. -/
inductive PyVal where
  | vNone : PyVal
  | vBool : Bool → PyVal
  | vStr : String → PyVal
  | vInt : Int → PyVal
  | vDict : List (String × PyVal) → PyVal

open PyVal

/-- A Python dictionary: association list of string keys to values. Python
dictionaries have unique keys; theorems that need this assume `Nodup` of the
key list. -/
abbrev Dict := List (String × PyVal)

/-- Python truthiness of a value (`bool(v)`), restricted to the constructors we
model. An empty string, empty dict, `None`, `False` and `0` are falsy. -/
def pyTruthy : PyVal → Bool
  | vNone => false
  | vBool b => b
  | vStr s => s ≠ ""
  | vInt n => n ≠ 0
  | vDict d => !d.isEmpty

/-- Dictionary lookup (`d[k]` / `k in d`): first binding wins (bindings are
unique in a real Python dict). -/
def dget : Dict → String → Option PyVal
  | [], _ => none
  | (k, v) :: rest, key => if k = key then some v else dget rest key

/-- Dictionary assignment `d[key] = val`: replaces the binding in place if the
key is present (Python keeps the original insertion position), else appends. -/
def dinsert : Dict → String → PyVal → Dict
  | [], key, val => [(key, val)]
  | (k, v) :: rest, key, val =>
      if k = key then (key, val) :: rest else (k, v) :: dinsert rest key val

/-- Python `{**a, **b}`: start from `a` and assign every binding of `b` in
order, so `b`'s value wins on shared keys. -/
def dunion (a b : Dict) : Dict :=
  b.foldl (fun acc kv => dinsert acc kv.1 kv.2) a

/-- `d.get(k, default)` as a total function. -/
def dgetD (d : Dict) (k : String) (default : PyVal) : PyVal :=
  (dget d k).getD default

/-- `d.get(k, default)` where a string is expected; non-string values fall back
to the default (in Python a non-string here would raise a `TypeError` on the
subsequent string operation). -/
def dgetStrD (d : Dict) (k : String) (default : String) : String :=
  match dget d k with
  | some (vStr s) => s
  | _ => default

/-- Keys of a dictionary. -/
def dkeys (d : Dict) : List String := d.map Prod.fst

/-- Python `str.lower()` restricted to the alphabets appearing in the sources:
ASCII letters and the Estonian letters Õ Ä Ö Ü Š Ž. -/
def pyLowerChar (c : Char) : Char :=
  if 'A' ≤ c ∧ c ≤ 'Z' then Char.ofNat (c.toNat + 32)
  else if c = 'Õ' then 'õ'
  else if c = 'Ä' then 'ä'
  else if c = 'Ö' then 'ö'
  else if c = 'Ü' then 'ü'
  else if c = 'Š' then 'š'
  else if c = 'Ž' then 'ž'
  else c

/-- `s.lower()`. -/
def pyLower (s : String) : String := String.mk (s.data.map pyLowerChar)

/-- Is `pre` a leading segment of `l`? -/
def startsWithL : List Char → List Char → Bool
  | [], _ => true
  | _ :: _, [] => false
  | p :: ps, c :: cs => p = c && startsWithL ps cs

/-- Python substring containment `needle in haystack`. -/
def containsSubL : List Char → List Char → Bool
  | needle, [] => needle.isEmpty
  | needle, c :: cs => startsWithL needle (c :: cs) || containsSubL needle cs

/-- Python `needle in haystack` on strings. -/
def containsSub (needle haystack : String) : Bool :=
  containsSubL needle.data haystack.data

/-- Python `s.startswith(p)`. -/
def pyStartsWith (s p : String) : Bool := startsWithL p.data s.data

/-- Python `s.endswith(p)`. -/
def pyEndsWith (s p : String) : Bool := startsWithL p.data.reverse s.data.reverse

/-- Python whitespace class `\s` (ASCII part, which is all the inputs use). -/
def isPySpace (c : Char) : Bool :=
  c = ' ' || c = '\t' || c = '\n' || c = '\r' || c = '\x0b' || c = '\x0c'

/-- Python `str.strip()`. -/
def pyStrip (s : String) : String :=
  String.mk (((s.data.dropWhile fun c => isPySpace c).reverse.dropWhile
      fun c => isPySpace c).reverse)

/-- `s[:n]` (Python slices strings by characters). -/
def pyTake (s : String) (n : Nat) : String := String.mk (s.data.take n)

/-- `s[n:]`. -/
def pyDrop (s : String) (n : Nat) : String := String.mk (s.data.drop n)

/-- `s[:-1]`. -/
def pyDropLast (s : String) : String := String.mk (s.data.dropLast)

/-- `len(s)` in characters. -/
def pyLen (s : String) : Nat := s.data.length

/-- `re.sub(r'[^0-9+]', '', phone)`: keep only digits and `+`. -/
def cleanPhoneStr (s : String) : String :=
  String.mk (s.data.filter fun c => ('0' ≤ c ∧ c ≤ '9') || c = '+')

/-- Worker for `re.sub(r'\s+', ' ', s)`: the flag says whether we are inside a
whitespace run (which contributes a single space at its first character). -/
def collapseWsGo : Bool → List Char → List Char
  | _, [] => []
  | inRun, c :: cs =>
      if isPySpace c then
        if inRun then collapseWsGo true cs else ' ' :: collapseWsGo true cs
      else c :: collapseWsGo false cs

/-- `re.sub(r'\s+', ' ', s)`: collapse each whitespace run to one space. -/
def collapseWs (s : String) : String := String.mk (collapseWsGo false s.data)

/-- Worker for `pySplitFirst`. -/
def splitFirstGo (sep : Char) : List Char → List Char → String × Option String
  | acc, [] => (String.mk acc.reverse, none)
  | acc, c :: cs =>
      if c = sep then (String.mk acc.reverse, some (String.mk cs))
      else splitFirstGo sep (c :: acc) cs

/-- Python `s.split(sep, 1)`: split on the first occurrence of a one-character
separator; returns `(before, some after)` or `(s, none)` when absent. -/
def pySplitFirst (s : String) (sep : Char) : String × Option String :=
  splitFirstGo sep [] s.data

/-- Worker for `pySplitAll`. -/
def splitAllGo (sep : Char) : List Char → List Char → List String
  | acc, [] => [String.mk acc.reverse]
  | acc, c :: cs =>
      if c = sep then String.mk acc.reverse :: splitAllGo sep [] cs
      else splitAllGo sep (c :: acc) cs

/-- Python `s.split(sep)` for a one-character separator. -/
def pySplitAll (s : String) (sep : Char) : List String :=
  splitAllGo sep [] s.data

/-- Worker for `pyReplace`, fuelled by the input length (each step consumes at
least one character when the pattern is non-empty). -/
def pyReplaceGo (pat repl : List Char) : List Char → Nat → List Char
  | _, 0 => []
  | [], _ + 1 => []
  | c :: cs, fuel + 1 =>
      if pat ≠ [] ∧ startsWithL pat (c :: cs) then
        repl ++ pyReplaceGo pat repl ((c :: cs).drop pat.length) fuel
      else c :: pyReplaceGo pat repl cs fuel

/-- Python `s.replace(pat, repl)` for non-empty `pat`: replace every
(non-overlapping, left-to-right) occurrence. -/
def pyReplace (s pat repl : String) : String :=
  String.mk (pyReplaceGo pat.data repl.data s.data s.data.length)

/-! ## match-customer: LLM-output filtering and criteria merging -/

/-- Does the LLM response value count as null for the post-filter in
`extract_customer_info_with_openai` (`v is not None and v != "null"`)? -/
def isNullish : PyVal → Bool
  | vNone => true
  | vStr s => s = "null"
  | _ => false

/-- The post-processing of a successfully parsed LLM customer-extraction
response (`src/gcf/match-customer/main.py:159`): drop `None`/`"null"` fields.
The filtered dictionary is what the extractor returns. -/
def openaiFilter (extracted_data : Dict) : Dict :=
  extracted_data.filter fun kv => !isNullish kv.2

/-- `v is not None` test used by the final cleanup of the merged criteria. -/
def isPyNone : PyVal → Bool
  | vNone => true
  | _ => false

/-- `lookup_criteria = {k: v for k, v in lookup_criteria.items() if v is not
None}` (`main.py:339`). -/
def removeNoneValues (d : Dict) : Dict := d.filter fun kv => !isPyNone kv.2

/-- The precedence merge of the two extraction results
(`src/gcf/match-customer/main.py:314-324`): if LLM-primary is configured and
the LLM result is a non-empty dict, LLM values override regex values;
otherwise regex values override LLM values. -/
def mergeCriteria (regex_results llm_data : Dict) (llm_primary : Bool) : Dict :=
  if llm_primary ∧ llm_data.isEmpty = false then dunion regex_results llm_data
  else dunion llm_data regex_results

/-- The caller-id backfill (`main.py:327-328`): if no `phoneNumber` survived
the merge and the caller id is not the sentinel `"test"`, insert the caller id
as the phone number. -/
def backfillPhone (d : Dict) (caller : String) : Dict :=
  if (dget d "phoneNumber").isNone ∧ caller ≠ "test" then
    dinsert d "phoneNumber" (vStr caller)
  else d

/-- The complete construction of the final `lookup_criteria`
(`main.py:314-339`): precedence merge, caller backfill, then removal of `None`
values. `llm_data` is the (already filtered) LLM extractor output — empty when
the LLM is disabled or failed. -/
def finalLookupCriteria (regex_results llm_data : Dict) (llm_primary : Bool)
    (caller : String) : Dict :=
  removeNoneValues (backfillPhone (mergeCriteria regex_results llm_data llm_primary) caller)

/-! ## match-customer: phone and company variation generation -/

/-- Phone-number variation generation (`src/gcf/match-customer/main.py:359-377`):
clean the phone to digits and `+`; when longer than 6 characters produce, in
order, drop-first-character, drop-last-character, and then either
strip-`+372`-prefix (when the clean phone starts with `+372`) or
add-`+372`-prefix (when it does not start with `+` at all). -/
def phoneVariations (original_phone : String) : List String :=
  let clean_phone := cleanPhoneStr original_phone
  if pyLen clean_phone > 6 then
    [pyDrop clean_phone 1, pyDropLast clean_phone] ++
      (if pyStartsWith clean_phone "+372" then [pyDrop clean_phone 4]
       else if ¬ pyStartsWith clean_phone "+" then ["+372" ++ clean_phone]
       else [])
  else []

/-- Company-name variation generation (`main.py:380-396`): drop words shorter
than 3 characters (only when that changes something), then strip the first
matching legal-entity suffix. -/
def companyVariations (original_company : String) : List String :=
  let words := (pySplitAll original_company ' ').filter (fun w => w ≠ "")
  let filtered_words := words.filter fun w => 3 ≤ pyLen w
  let v1 : List String :=
    if filtered_words.length < words.length then [" ".intercalate filtered_words] else []
  let legal_suffixes := ["OÜ", "AS", "MTÜ", "TÜ", "FIE"]
  let v2 : List String :=
    match legal_suffixes.find? (fun suf => pyEndsWith original_company suf) with
    | some suf => [pyStrip (pyTake original_company (pyLen original_company - pyLen suf))]
    | none => []
  v1 ++ v2

/-! ## A small regular-expression engine

The Python sources use `re` with a handful of concrete patterns. We model the
needed fragment (literals, character classes, greedy counted repetition of a
character class, alternation, option, capture groups, word boundaries) with a
backtracking matcher that enumerates candidate matches in exactly Python's
preference order (leftmost alternative first, greedy repetition longest
first), so the head of the enumeration is the match Python produces. -/

/-- Regular-expression abstract syntax for the fragment used by the sources.
`rep p lo hi` is a greedy repetition of the one-character class `p` between
`lo` and `hi` (unbounded when `hi = none`) times; `grp n r` is capture group
number `n`. -/
inductive RE where
  | eps : RE
  | lit : String → RE
  | rep : (Char → Bool) → Nat → Option Nat → RE
  | seq : RE → RE → RE
  | alt : RE → RE → RE
  | grp : Nat → RE → RE
  | wb : RE

/-- Is `c` a word character for `\b` (Python `\w` over the alphabets in use:
ASCII alphanumerics, underscore, Estonian letters). -/
def isWordChar (c : Char) : Bool :=
  ('A' ≤ c ∧ c ≤ 'Z') || ('a' ≤ c ∧ c ≤ 'z') || ('0' ≤ c ∧ c ≤ '9') || c = '_' ||
    c = 'Õ' || c = 'Ä' || c = 'Ö' || c = 'Ü' || c = 'õ' || c = 'ä' || c = 'ö' || c = 'ü' ||
    c = 'š' || c = 'Š' || c = 'ž' || c = 'Ž'

/-- Character comparison, optionally case-insensitive (`re.IGNORECASE`). -/
def chEq (ci : Bool) (a b : Char) : Bool :=
  if ci then pyLowerChar a = pyLowerChar b else a = b

/-- Does the literal match at the head of the input? Returns the remaining
input and the new previous-character on success. -/
def litMatch (ci : Bool) : List Char → Option Char → List Char →
    Option (List Char × Option Char)
  | [], prev, cs => some (cs, prev)
  | _ :: _, _, [] => none
  | p :: ps, _, c :: cs => if chEq ci p c then litMatch ci ps (some c) cs else none

/-- Length of the maximal run of class characters at the head of the input,
capped at `hi` when given. -/
def classRun (p : Char → Bool) (hi : Option Nat) : List Char → Nat
  | [] => 0
  | c :: cs =>
      if hi = some 0 then 0
      else if p c then classRun p (hi.map (· - 1)) cs + 1 else 0

/-- The repetition counts to try, greedily largest first, down to `lo`. -/
def repCounts (m lo : Nat) : List Nat :=
  ((List.range (m + 1)).reverse).filter fun n => lo ≤ n

/-- Consume exactly `n` characters: remaining input and new previous
character. (Callers only use `n` up to the input length.) -/
def consumeN (prev : Option Char) (cs : List Char) (n : Nat) :
    List Char × Option Char :=
  (cs.drop n, if n = 0 then prev else cs.get? (n - 1))

/-- A match state: remaining input, previous character (for `\b`), and the
captures recorded so far (group number ↦ captured text). -/
abbrev MatchSt := List Char × Option Char × List (Nat × String)

/-- All ways the expression can match a prefix of the input, in Python's
backtracking preference order. The first element is the match Python commits
to. -/
def reMatches (ci : Bool) : RE → MatchSt → List MatchSt
  | RE.eps, st => [st]
  | RE.lit s, (cs, prev, caps) =>
      match litMatch ci s.data prev cs with
      | some (cs', prev') => [(cs', prev', caps)]
      | none => []
  | RE.rep p lo hi, (cs, prev, caps) =>
      let m := classRun p hi cs
      (repCounts m lo).map fun n =>
        let (cs', prev') := consumeN prev cs n
        (cs', prev', caps)
  | RE.seq a b, st =>
      (reMatches ci a st).flatMap fun st' => reMatches ci b st'
  | RE.alt a b, st => reMatches ci a st ++ reMatches ci b st
  | RE.grp n r, (cs, prev, caps) =>
      (reMatches ci r (cs, prev, caps)).map fun (cs', prev', caps') =>
        (cs', prev', caps' ++ [(n, String.mk (cs.take (cs.length - cs'.length)))])
  | RE.wb, (cs, prev, caps) =>
      let before := match prev with | some c => isWordChar c | none => false
      let after := match cs with | c :: _ => isWordChar c | [] => false
      if before ≠ after then [(cs, prev, caps)] else []

/-- `r?` — greedy option: try to match, then try the empty match. -/
def REopt (r : RE) : RE := RE.alt r RE.eps

/-- Sequence of a list of expressions. -/
def REcat (rs : List RE) : RE := rs.foldr RE.seq RE.eps

/-- Alternation of a list of expressions, leftmost preferred. -/
def REalts : List RE → RE
  | [] => RE.eps
  | [r] => r
  | r :: rs => RE.alt r (REalts rs)

/-- The match Python's engine produces at the current position, if any:
number of characters consumed and the captures. -/
def reMatchHere (ci : Bool) (r : RE) (prev : Option Char) (cs : List Char) :
    Option (Nat × List (Nat × String)) :=
  match reMatches ci r (cs, prev, []) with
  | [] => none
  | (cs', _, caps) :: _ => some (cs.length - cs'.length, caps)

/-- Worker for `refindall`: scan positions left to right, emitting each
(non-overlapping) match's consumed text and captures, resuming after the
matched text. Fuelled by the input length; all source patterns only produce
non-empty matches, and a (theoretically) empty match advances one character
like Python does. -/
def refindallGo (ci : Bool) (r : RE) : Nat → Option Char → List Char →
    List (String × List (Nat × String))
  | 0, _, _ => []
  | fuel + 1, prev, cs =>
      match cs with
      | [] => []
      | c :: rest =>
          match reMatchHere ci r prev cs with
          | some (n, caps) =>
              if n = 0 then refindallGo ci r fuel (some c) rest
              else
                let (cs', prev') := consumeN prev cs n
                (String.mk (cs.take n), caps) :: refindallGo ci r fuel prev' cs'
          | none => refindallGo ci r fuel (some c) rest

/-- `re.findall(pattern, s)` returning, per match, the full text and captures. -/
def refindallRaw (ci : Bool) (r : RE) (s : String) :
    List (String × List (Nat × String)) :=
  refindallGo ci r s.data.length none s.data

/-- Value of capture group `n` of one match; Python renders an unmatched group
as `''` in `findall` results. -/
def capOf (caps : List (Nat × String)) (n : Nat) : String :=
  match caps.find? (fun kv => kv.1 = n) with
  | some kv => kv.2
  | none => ""

/-- `re.findall` for a pattern with no capture group: list of whole matches. -/
def refindall0 (ci : Bool) (r : RE) (s : String) : List String :=
  (refindallRaw ci r s).map Prod.fst

/-- `re.findall` for a pattern with exactly one capture group: list of the
group's texts. -/
def refindall1 (ci : Bool) (r : RE) (s : String) : List String :=
  (refindallRaw ci r s).map fun mc => capOf mc.2 1

/-- `re.findall` for a pattern with two capture groups: list of group pairs. -/
def refindall2 (ci : Bool) (r : RE) (s : String) : List (String × String) :=
  (refindallRaw ci r s).map fun mc => (capOf mc.2 1, capOf mc.2 2)

/-! ## match-customer: the regex extractor (`extract_customer_info_with_regex`) -/

/-- Single occurrence of a character class. -/
def REcls (p : Char → Bool) : RE := RE.rep p 1 (some 1)

/-- `[0-9]` / `\d`. -/
def isDigitCh (c : Char) : Bool := '0' ≤ c ∧ c ≤ '9'

/-- `[A-Za-z]`. -/
def isAsciiLetter (c : Char) : Bool := ('A' ≤ c ∧ c ≤ 'Z') || ('a' ≤ c ∧ c ≤ 'z')

/-- `[A-Za-zÕÄÖÜõäöü]` — the letter class the sources use for Estonian names. -/
def isEstLetter (c : Char) : Bool :=
  isAsciiLetter c || c = 'Õ' || c = 'Ä' || c = 'Ö' || c = 'Ü' ||
    c = 'õ' || c = 'ä' || c = 'ö' || c = 'ü'

/-- `[A-Za-zÕÄÖÜõäöü\s-]` — company-name body characters. -/
def isCompanyCh (c : Char) : Bool := isEstLetter c || isPySpace c || c = '-'

/-- `[A-Za-z0-9._%+-]` — email local part. -/
def isEmailLocalCh (c : Char) : Bool :=
  isAsciiLetter c || isDigitCh c || c = '.' || c = '_' || c = '%' || c = '+' || c = '-'

/-- `[A-Za-z0-9.-]` — email domain part. -/
def isEmailDomainCh (c : Char) : Bool :=
  isAsciiLetter c || isDigitCh c || c = '.' || c = '-'

/-- `[A-Z|a-z]` — the (quirky, `|`-including) top-level-domain class of the
source's email pattern. -/
def isTldCh (c : Char) : Bool := isAsciiLetter c || c = '|'

/-- `[- ]`. -/
def isDashSpace (c : Char) : Bool := c = '-' || c = ' '

/-- `\b[A-Za-z0-9._%+-]+@[A-Za-z0-9.-]+\.[A-Z|a-z]{2,}\b`
(`match-customer/main.py:191`). -/
def emailPat : RE :=
  REcat [RE.wb, RE.rep isEmailLocalCh 1 none, RE.lit "@",
    RE.rep isEmailDomainCh 1 none, RE.lit ".", RE.rep isTldCh 2 none, RE.wb]

/-- `\b([A-Za-zÕÄÖÜõäöü\s-]+(?:OÜ|AS|MTÜ|TÜ|FIE|UÜ|TüH))\b`
(`match-customer/main.py:195`). -/
def companyPat : RE :=
  REcat [RE.wb,
    RE.grp 1 (REcat [RE.rep isCompanyCh 1 none,
      REalts [RE.lit "OÜ", RE.lit "AS", RE.lit "MTÜ", RE.lit "TÜ",
        RE.lit "FIE", RE.lit "UÜ", RE.lit "TüH"]]),
    RE.wb]

/-- The person-name pattern of the regex extractor
(`match-customer/main.py:203-204`):
`(?:nimi|on|mina olen|helistab|kontakt)\s+(?:on\s+)?([A-Za-zÕÄÖÜõäöü]{2,}(?:\s+[A-Za-zÕÄÖÜõäöü]{2,})?)`. -/
def namePatMC : RE :=
  REcat [REalts [RE.lit "nimi", RE.lit "on", RE.lit "mina olen",
      RE.lit "helistab", RE.lit "kontakt"],
    RE.rep isPySpace 1 none,
    REopt (REcat [RE.lit "on", RE.rep isPySpace 1 none]),
    RE.grp 1 (REcat [RE.rep isEstLetter 2 none,
      REopt (REcat [RE.rep isPySpace 1 none, RE.rep isEstLetter 2 none])])]

/-- `\b(?:\+372[- ]?|8[- ]?)?(?:\d{3,4}[- ]?\d{3,4}|\d{7,8})\b`
(`match-customer/main.py:208`, also reused by `create-order/main.py:433`). -/
def phonePat : RE :=
  REcat [RE.wb,
    REopt (REalts [REcat [RE.lit "+372", REopt (REcls isDashSpace)],
      REcat [RE.lit "8", REopt (REcls isDashSpace)]]),
    REalts [REcat [RE.rep isDigitCh 3 (some 4), REopt (REcls isDashSpace),
        RE.rep isDigitCh 3 (some 4)],
      RE.rep isDigitCh 7 (some 8)],
    RE.wb]

/-- `\b\d{8}\b` — company registration code (`match-customer/main.py:257`). -/
def regCodePat : RE := REcat [RE.wb, RE.rep isDigitCh 8 (some 8), RE.wb]

/-- Company-type indicator keywords (`match-customer/main.py:212`). -/
def company_indicators : List String :=
  ["firma", "ettevõte", "ettevõtte", "äriühing", "organisatsioon", "OÜ", "AS",
    "FIE", "registrikood"]

/-- Personal-type indicator keywords (`match-customer/main.py:213`). -/
def personal_indicators : List String :=
  ["eraklient", "erakliendid", "eraisik", "kodune", "kodus", "korter",
    "korterisse", "pere", "isiklik"]

/-- `company_count` (`main.py:216`): how many company indicators occur
(case-insensitively) in the transcript. -/
def companyIndicatorCount (t : String) : Nat :=
  (company_indicators.filter fun ind => containsSub (pyLower ind) (pyLower t)).length

/-- `personal_count` (`main.py:217`). -/
def personalIndicatorCount (t : String) : Nat :=
  (personal_indicators.filter fun ind => containsSub (pyLower ind) (pyLower t)).length

/-- `company_matches` (`main.py:196`). -/
def companyMatches (t : String) : List String := refindall1 false companyPat t

/-- The regex extractor's customer-type vote (`main.py:220-222`): `ETTEVÕTE`
when company indicators strictly outnumber personal ones or a company-name
match exists, else `ERAKLIENT`. -/
def regexCustomerType (t : String) : String :=
  if companyIndicatorCount t > personalIndicatorCount t ∨ companyMatches t ≠ []
  then "ETTEVÕTE" else "ERAKLIENT"

/-- A conditionally present string entry of the results dictionary
(`if ...: results[k] = v`). -/
def optEntry (k : String) (v : Option String) : Dict :=
  match v with
  | some s => [(k, vStr s)]
  | none => []

/-- The `best_phone` selection (`match-customer/main.py:232-240`): the first
phone match cleaned to digits/`+`, kept only when at least 5 characters long. -/
def bestPhone (phone_matches : List String) : Option String :=
  match phone_matches with
  | [] => none
  | p :: _ => let c := cleanPhoneStr p; if 5 ≤ pyLen c then some c else none

/-- `extract_customer_info_with_regex` (`match-customer/main.py:186-271`):
the result dictionary holds the conditionally present phone, email, company
name, registration code and person name, and always ends with the customer
type. The `address_pattern` scan of the source is omitted here because its
matches are never added to the results dictionary. -/
def extract_customer_info_with_regex (transcript_content : String) : Dict :=
  let email_matches := refindall0 false emailPat transcript_content
  let company_matches := companyMatches transcript_content
  let name_matches := refindall1 false namePatMC transcript_content
  let phone_matches := refindall0 false phonePat transcript_content
  let reg_code_matches := refindall0 false regCodePat transcript_content
  let customer_type := regexCustomerType transcript_content
  optEntry "phoneNumber" (bestPhone phone_matches) ++
  optEntry "email" email_matches.head? ++
  optEntry "companyName" (company_matches.head?.map fun c => collapseWs (pyStrip c)) ++
  optEntry "companyRegCode" reg_code_matches.head? ++
  optEntry "name" (name_matches.head?.map fun n => collapseWs (pyStrip n)) ++
  [("customerType", vStr customer_type)]

/-! ## create-order: service catalogue and keyword classifier -/

/-- The closed list of valid Toruabi services
(`src/gcf/create-order/main.py:34-52`). -/
def TORUABI_SERVICES : List String :=
  ["Ummistuse likvideerimine", "Hooldustööd", "Santehnilised tööd",
   "Elektritööd", "Survepesu", "Gaasitööd", "Keevitustööd", "Kaameravaatlus",
   "Lekkeotsing gaasiga", "Ehitustööd", "Rasvapüüdja tühjendus kuni 4m3",
   "Muu", "Freesimistööd", "Majasiseste kanalisatsioonitrasside pesu",
   "Fekaalivedu (1 koorem = kuni 5 m3)", "Hinnapakkumise küsimine",
   "Väljakutse tasu"]

/-- The keyword table for detecting `typeOfWork`
(`src/gcf/create-order/main.py:55-73`), in the source's insertion order. -/
def SERVICE_KEYWORDS : List (String × List String) :=
  [("Ummistuse likvideerimine",
      ["ummistus", "ummistuse", "likvideerimine", "tõkke", "ummistunud"]),
   ("Hooldustööd", ["hooldus", "hooldustööd", "hoolduse", "korras", "kontroll"]),
   ("Santehnilised tööd",
      ["santehnilised", "santehnika", "torutööd", "toru", "veetoru"]),
   ("Elektritööd", ["elektritööd", "elekter", "elektri", "juhe", "vool"]),
   ("Survepesu", ["survepesu", "pesu", "surve", "puhastus"]),
   ("Gaasitööd", ["gaasitööd", "gaas", "gaasi"]),
   ("Keevitustööd", ["keevitustööd", "keevitus", "keevita"]),
   ("Kaameravaatlus", ["kaameravaatlus", "kaamera", "vaatlus", "inspektsioon"]),
   ("Lekkeotsing gaasiga", ["lekkeotsing", "leke", "gaasiga", "gaasileke"]),
   ("Ehitustööd", ["ehitustööd", "ehitus", "ehituse", "renoveerimine"]),
   ("Rasvapüüdja tühjendus kuni 4m3",
      ["rasvapüüdja", "tühjendus", "rasva", "4m3", "rasva tühjendus"]),
   ("Muu", ["muu", "teine", "misc", "other"]),
   ("Freesimistööd", ["freesimistööd", "freesimine", "frees"]),
   ("Majasiseste kanalisatsioonitrasside pesu",
      ["kanalisatsioonitrasside", "kanalisatsioon", "pesu", "majasiseste"]),
   ("Fekaalivedu (1 koorem = kuni 5 m3)",
      ["fekaalivedu", "fekaal", "koorem", "5 m3"]),
   ("Hinnapakkumise küsimine",
      ["hinnapakkumine", "hinnapakkumise", "pakkumine", "hind"]),
   ("Väljakutse tasu", ["väljakutse", "tasu", "teenustasu"])]

/-- The keyword score of one service for a (lowercased) transcription
(`create-order/main.py:306`): the number of its keywords occurring as
(case-insensitive) substrings. -/
def keywordScore (transcription_lower : String) (kws : List String) : Nat :=
  (kws.filter fun kw => containsSub (pyLower kw) transcription_lower).length

/-- The scoring fold of `determine_type_of_work_with_keywords`
(`create-order/main.py:304-309`): keep the first service whose score strictly
exceeds the best so far. -/
def keywordFold (transcription_lower : String)
    (l : List (String × List String)) (acc : Option String × Nat) :
    Option String × Nat :=
  l.foldl
    (fun acc sk =>
      let score := keywordScore transcription_lower sk.2
      if score > acc.2 then (some sk.1, score) else acc)
    acc

/-- `determine_type_of_work_with_keywords` (`create-order/main.py:298-312`):
score every service, keep the first strict maximum, default to `"Muu"`. -/
def determine_type_of_work_with_keywords (transcription : String) : String :=
  let transcription_lower := pyLower transcription
  match (keywordFold transcription_lower SERVICE_KEYWORDS (none, 0)).1 with
  | some best_match => best_match
  | none => "Muu"

/-! ## create-order: LLM work-type determination -/

/-- Outcome of one attempt of the OpenAI chat call in
`determine_type_of_work_with_openai`: a non-200 status, a 200 whose content
fails to parse as JSON, or a 200 with a parsed JSON object. -/
inductive LlmAttempt where
  | httpError : Nat → LlmAttempt
  | badJson : LlmAttempt
  | parsed : Dict → LlmAttempt

/-- The validation step of `determine_type_of_work_with_openai`
(`create-order/main.py:267-274`): the whole parsed extraction is returned only
when its `typeOfWork` is truthy and a member of `TORUABI_SERVICES`; otherwise
the whole extraction is discarded (`return None`, which also ends the retry
loop). A non-string `typeOfWork` never equals a listed string, so it is also
discarded. -/
def validateOpenAIWorkType (extracted_data : Dict) : Option Dict :=
  match dget extracted_data "typeOfWork" with
  | some (vStr s) =>
      if pyTruthy (vStr s) ∧ s ∈ TORUABI_SERVICES then some extracted_data
      else none
  | _ => none

/-- The retry loop of `determine_type_of_work_with_openai`
(`create-order/main.py:246-292`), over the sequence of attempt outcomes
(`MAX_RETRIES = 3`): non-200 and unparseable responses advance to the next
attempt; a parsed response is validated and returned (valid or not — an
invalid `typeOfWork` returns `None` without retrying). -/
def openaiAttemptLoop : List LlmAttempt → Nat → Option Dict
  | _, 0 => none
  | [], _ + 1 => none
  | a :: rest, fuel + 1 =>
      match a with
      | .parsed d => validateOpenAIWorkType d
      | _ => openaiAttemptLoop rest fuel

/-- `determine_type_of_work_with_openai` (`create-order/main.py:191-296`) as a
function of the attempt outcomes of its (external) LLM calls. -/
def determine_type_of_work_with_openai (attempts : List LlmAttempt) : Option Dict :=
  openaiAttemptLoop attempts 3

/-- `determine_type_of_work` (`create-order/main.py:314-340`): always compute
the keyword result; when the LLM is enabled, also ask it; use the LLM's
`typeOfWork` only when LLM-primary is configured and the LLM produced a truthy
dict with a truthy `typeOfWork` (which the validator guarantees is a string in
the listed set), else the keyword result. Returns the work type and the
optional extracted details. -/
def determine_type_of_work (transcription : String) (useLlm llmPrimary : Bool)
    (attempts : List LlmAttempt) : String × Option Dict :=
  let keyword_match := determine_type_of_work_with_keywords transcription
  let openai_result : Option Dict :=
    if useLlm then determine_type_of_work_with_openai attempts else none
  let extracted_details : Option Dict :=
    match openai_result with
    | some d => if d.isEmpty then none else some d
    | none => none
  match openai_result with
  | some d =>
      if llmPrimary ∧ d.isEmpty = false ∧ pyTruthy (dgetD d "typeOfWork" vNone) then
        (dgetStrD d "typeOfWork" keyword_match, extracted_details)
      else (keyword_match, extracted_details)
  | none => (keyword_match, extracted_details)

/-! ## create-order: contact-detail extraction -/

/-- The `contact_info` dictionary of `extract_contact_details` — it always has
exactly the keys `firstName`, `lastName`, `phone`, `email`, so we model it as
a structure. -/
structure ContactInfo where
  firstName : String
  lastName : String
  phone : String
  email : PyVal

/-- The name-indicator scan pattern of `extract_contact_details`
(`create-order/main.py:454`):
`{indicator}\s+([A-Za-zÕÄÖÜõäöü]+(?:\s+[A-Za-zÕÄÖÜõäöü]+)?)`, compiled with
`re.IGNORECASE`. -/
def namePatCO (indicator : String) : RE :=
  REcat [RE.lit indicator, RE.rep isPySpace 1 none,
    RE.grp 1 (REcat [RE.rep isEstLetter 1 none,
      REopt (REcat [RE.rep isPySpace 1 none, RE.rep isEstLetter 1 none])])]

/-- Is the candidate name a company name by the checks of
`create-order/main.py:411-412`: contains `" OÜ"` or `" AS"`, or ends with
`"OÜ"` or `"AS"`. -/
def looksLikeCompanyName (n : String) : Bool :=
  containsSub " OÜ" n || containsSub " AS" n || pyEndsWith n "OÜ" || pyEndsWith n "AS"

/-- Split an extracted full name on the first space into first/last name and
apply it to the contact info (`create-order/main.py:415-420` and `457-463`):
with no space only the first name is set (the last name keeps its previous
value). -/
def applyNameSplit (ci : ContactInfo) (nm : String) : ContactInfo :=
  if containsSub " " nm then
    match pySplitFirst nm ' ' with
    | (fn, some ln) => { ci with firstName := fn, lastName := ln }
    | (fn, none) => { ci with firstName := fn }
  else { ci with firstName := nm }

/-- The name fallbacks of `extract_contact_details`
(`create-order/main.py:397-406`): `lookup_criteria.get("name")` if truthy,
else the top-level `name` of the match data, if truthy. -/
def fallbackName (match_data : Dict) : Option PyVal :=
  let fromCriteria : Option PyVal :=
    match dget match_data "lookup_criteria" with
    | some (vDict lc) =>
        match dget lc "name" with
        | some v => if pyTruthy v then some v else none
        | none => none
    | _ => none
  match fromCriteria with
  | some v => some v
  | none =>
      match dget match_data "name" with
      | some v => if pyTruthy v then some v else none
      | none => none

/-- The match-file part of `extract_contact_details`
(`create-order/main.py:354-424`), given the downloaded customer-match data
(`none` when no match file is referenced or the download/parse failed — the
source swallows those errors). Returns the updated contact info.

Non-string values where Python would raise a `TypeError` inside this `try`
block (caught at line 423) are modelled as leaving the name unset. A string
`openai_extraction` that itself parses as JSON is modelled as the parsed
dictionary (the source parses it in place). -/
def contactFromMatchData (ci : ContactInfo) (match_data : Dict) : ContactInfo :=
  -- step 1: candidate name and phone from the openai_extraction field
  let openai_data : Option Dict :=
    match dget match_data "openai_extraction" with
    | some (vDict od) => some od
    | _ => none
  let extracted_name0 : Option PyVal :=
    match openai_data with
    | some od => dget od "name"
    | none => none
  let ci :=
    match openai_data with
    | some od =>
        match dget od "phoneNumber" with
        | some (vStr p) =>
            if pyTruthy (vStr p) ∧ p ≠ "test" then
              let clean_phone := cleanPhoneStr p
              if 5 ≤ pyLen clean_phone then { ci with phone := clean_phone } else ci
            else ci
        | _ => ci
    | none => ci
  -- step 2: fall back to lookup_criteria.name, then top-level name
  let extracted_name : Option PyVal :=
    match extracted_name0 with
    | some v => if pyTruthy v then some v else fallbackName match_data
    | none => fallbackName match_data
  -- step 3: use the name unless it is a known sentinel or looks like a company
  match extracted_name with
  | some (vStr nm) =>
      if pyTruthy (vStr nm) ∧ nm ≠ "test" ∧ nm ≠ "Unknown" then
        if looksLikeCompanyName nm then ci else applyNameSplit ci nm
      else ci
  | _ => ci

/-- The second half of `extract_contact_details`
(`create-order/main.py:426-465`): the company-name rejection check, then the
in-transcript phone, email and self-identification name scans. Note that the
source runs the name-indicator scan AFTER the company-name check, so a name
found by that scan is never subjected to it. -/
def contactFromTranscript (ci0 : ContactInfo) (transcription : String)
    (customer_data : Dict) : ContactInfo :=
  -- "Never use company name as person name" (main.py:426-430)
  let company_name := dgetStrD customer_data "name" ""
  let ci :=
    if ci0.firstName = company_name ∨ containsSub "OÜ" ci0.firstName ∨
        containsSub "AS" ci0.firstName then
      { ci0 with firstName := "Unknown", lastName := "" }
    else ci0
  -- phone numbers in the transcript (main.py:432-440)
  let phone_matches := refindall0 false phonePat transcription
  let ci :=
    match phone_matches with
    | [] => ci
    | p :: _ =>
        let clean_phone := cleanPhoneStr p
        if 5 ≤ pyLen clean_phone then { ci with phone := clean_phone } else ci
  -- email addresses in the transcript (main.py:442-447)
  let email_matches := refindall0 false emailPat transcription
  let ci :=
    match email_matches with
    | [] => ci
    | e :: _ => { ci with email := vStr e }
  -- self-identification indicators (main.py:449-463); the loop has no break,
  -- so each later indicator's first match overwrites the earlier ones
  let name_indicators := ["mina olen", "nimi on", "helistab", "kontakt"]
  name_indicators.foldl
    (fun ci indicator =>
      if containsSub indicator (pyLower transcription) then
        match refindall1 true (namePatCO indicator) transcription with
        | [] => ci
        | m :: _ => applyNameSplit ci (pyStrip m)
      else ci)
    ci

/-- `extract_contact_details` (`create-order/main.py:342-465`): defaults, the
match-file enrichment, then the transcript scans. -/
def extract_contact_details (transcription : String) (customer_data : Dict)
    (caller : String) (match_data : Option Dict) : ContactInfo :=
  let contact_info : ContactInfo :=
    { firstName := "Unknown", lastName := "Unknown", phone := caller,
      email := dgetD customer_data "email" vNone }
  let contact_info :=
    match match_data with
    | some md => contactFromMatchData contact_info md
    | none => contact_info
  contactFromTranscript contact_info transcription customer_data

/-! ## create-order: time, access and technician extraction -/

/-- `kell\s+(\d{1,2})(?:\s*(?:ja|kuni|-)\s*(\d{1,2}))?` with `re.IGNORECASE`
(`create-order/main.py:508`). -/
def hourPat : RE :=
  REcat [RE.lit "kell", RE.rep isPySpace 1 none,
    RE.grp 1 (RE.rep isDigitCh 1 (some 2)),
    REopt (REcat [RE.rep isPySpace 0 none,
      REalts [RE.lit "ja", RE.lit "kuni", RE.lit "-"],
      RE.rep isPySpace 0 none,
      RE.grp 2 (RE.rep isDigitCh 1 (some 2))])]

/-- Does any indicator of the list occur in the lowercased transcription
(the `any(indicator in transcription.lower() ...)` idiom)? -/
def anyIndicator (indicators : List String) (transcription : String) : Bool :=
  indicators.any fun ind => containsSub ind (pyLower transcription)

/-- `extract_time_preferences` (`create-order/main.py:467-531`). -/
def extract_time_preferences (transcription : String) : String :=
  let today_indicators := ["täna", "tänane päev", "tänaseks"]
  let tomorrow_indicators := ["homme", "homne päev", "homseks"]
  let morning_indicators := ["hommikul", "hommikuks", "hommikune", "8-12", "8 ja 12", "8 kuni 12"]
  let afternoon_indicators := ["päeval", "lõuna ajal", "lõunaks", "12-16", "12 ja 16", "12 kuni 16"]
  let evening_indicators := ["õhtul", "õhtuks", "õhtune", "16-20", "16 ja 20", "16 kuni 20"]
  let tdy := anyIndicator today_indicators transcription
  let tmw := anyIndicator tomorrow_indicators transcription
  let time_info :=
    if anyIndicator morning_indicators transcription then
      if tmw then "Tomorrow morning (8-12)"
      else if tdy then "Today morning (8-12)"
      else "Morning hours (8-12)"
    else if anyIndicator afternoon_indicators transcription then
      if tmw then "Tomorrow afternoon (12-16)"
      else if tdy then "Today afternoon (12-16)"
      else "Afternoon hours (12-16)"
    else if anyIndicator evening_indicators transcription then
      if tmw then "Tomorrow evening (16-20)"
      else if tdy then "Today evening (16-20)"
      else "Evening hours (16-20)"
    else if tmw then "Tomorrow, time not specified"
    else if tdy then "Today, time not specified"
    else "Immediate processing from call"
  match refindall2 true hourPat transcription with
  | [] => time_info
  | (start_hour, end_hour) :: _ =>
      if end_hour ≠ "" then
        let time_window := start_hour ++ "-" ++ end_hour
        if tmw then "Tomorrow between " ++ time_window
        else if tdy then "Today between " ++ time_window
        else "Between " ++ time_window
      else
        if tmw then "Tomorrow at " ++ start_hour
        else if tdy then "Today at " ++ start_hour
        else "At " ++ start_hour

/-- `[.!?]` — the sentence separators of `re.split(r'[.!?]+', ...)`. -/
def isSentSep (c : Char) : Bool := c = '.' || c = '!' || c = '?'

/-- Worker for `splitSentences`: the flag records whether we are inside a
separator run (a run yields a single split). -/
def splitSentGo : Bool → List Char → List Char → List String
  | _, acc, [] => [String.mk acc.reverse]
  | inSep, acc, c :: cs =>
      if isSentSep c then
        if inSep then splitSentGo true acc cs
        else String.mk acc.reverse :: splitSentGo true [] cs
      else splitSentGo false (c :: acc) cs

/-- `re.split(r'[.!?]+', s)` (`create-order/main.py:547`). -/
def splitSentences (s : String) : List String :=
  splitSentGo false [] s.data

/-- `extract_access_instructions` (`create-order/main.py:533-553`): for each
access indicator found in the lowercased transcription, take the first
sentence containing it (the outer loop has no break, so a later indicator's
sentence overwrites an earlier one's); strip the result. -/
def extract_access_instructions (transcription : String) : String :=
  let access_indicators :=
    ["võti on", "võtke võti", "kood on", "ukse kood", "sissepääsu kood",
     "valve all", "valvur", "administraator", "reception", "vastuvõtt",
     "uksekell", "helista", "registratuur", "signalisatsioon"]
  let access_info :=
    access_indicators.foldl
      (fun access_info indicator =>
        if containsSub indicator (pyLower transcription) then
          match (splitSentences transcription).find?
              (fun sentence => containsSub indicator (pyLower sentence)) with
          | some sentence => pyStrip sentence ++ ". "
          | none => access_info
        else access_info)
      ""
  pyStrip access_info

/-- `(?:{ind})\s+([A-Za-zÕÄÖÜõäöü]+)` with IGNORECASE
(`create-order/main.py:569`). -/
def techAfterPat (indicator : String) : RE :=
  REcat [RE.lit indicator, RE.rep isPySpace 1 none,
    RE.grp 1 (RE.rep isEstLetter 1 none)]

/-- `([A-Za-zÕÄÖÜõäöü]+)\s+(?:{ind})` with IGNORECASE
(`create-order/main.py:578`). -/
def techBeforePat (indicator : String) : RE :=
  REcat [RE.grp 1 (RE.rep isEstLetter 1 none), RE.rep isPySpace 1 none,
    RE.lit indicator]

/-- The plausibility check of a technician name
(`create-order/main.py:574,583`): starts with an uppercase letter and has
length 3–20. Python's `str.isupper` on the alphabets in use. -/
def techNameOk (n : String) : Bool :=
  match n.data with
  | [] => false
  | c :: _ =>
      (('A' ≤ c ∧ c ≤ 'Z') || c = 'Õ' || c = 'Ä' || c = 'Ö' || c = 'Ü' ||
        c = 'Š' || c = 'Ž') &&
      3 ≤ pyLen n && pyLen n ≤ 20

/-- The indicator loop of `extract_technician_preference`
(`create-order/main.py:566-586`). The accumulator is the `technician_name`
variable: a candidate that fails the plausibility check is NOT cleared, and
the loop's final value is returned when no candidate ever passes. -/
def techLoop (transcription : String) : List String → String → String
  | [], tn => tn
  | indicator :: rest, tn =>
      if containsSub indicator (pyLower transcription) then
        let (tn, done) :=
          match refindall1 true (techAfterPat indicator) transcription with
          | m :: _ =>
              let nm := pyStrip m
              if techNameOk nm then (nm, true) else (nm, false)
          | [] => (tn, false)
        if done then tn
        else
          let (tn, done) :=
            match refindall1 true (techBeforePat indicator) transcription with
            | m :: _ =>
                let nm := pyStrip m
                if techNameOk nm then (nm, true) else (nm, false)
            | [] => (tn, false)
          if done then tn else techLoop transcription rest tn
      else techLoop transcription rest tn

/-- `extract_technician_preference` (`create-order/main.py:555-586`). -/
def extract_technician_preference (transcription : String) : String :=
  let technician_indicators :=
    ["saatke", "tuleks", "tehnik", "meister", "spetsialist",
     "meesterahvas", "mees", "naine", "sama inimene", "sama tehnik",
     "eelmine kord käis"]
  techLoop transcription technician_indicators ""

/-! ## create-order: order summary synthesis -/

/-- `customer_data.get("address", {}).get(k, default)` where a string is
expected (a non-dict `address` would raise in Python; absent fields give the
default). -/
def addrField (customer_data : Dict) (k : String) (default : String) : String :=
  match dget customer_data "address" with
  | some (vDict a) => dgetStrD a k default
  | _ => default

/-- The explicit contract-negation phrases checked before the positive keyword
(`create-order/main.py:626,635,721`). -/
def contractNegated (transcription : String) : Bool :=
  let tl := pyLower transcription
  containsSub "ei ole lepinguline" tl || containsSub "lepinguline ei ole" tl ||
    containsSub "lepinguline otseselt ei ole" tl

/-- `is_contract` of the regex fallback (`create-order/main.py:721`):
"lepinguline" occurs and no negation phrase does. -/
def isContractRegex (transcription : String) : Bool :=
  containsSub "lepinguline" (pyLower transcription) && !contractNegated transcription

/-- Customer company name with legal suffixes stripped
(`customer_data.get("name", "").replace(" OÜ", "").replace(" AS", "")`). -/
def strippedCompanyName (customer_data : Dict) : String :=
  pyReplace (pyReplace (dgetStrD customer_data "name" "") " OÜ" "") " AS" ""

/-- The regex-only branch of `generate_order_summary`
(`create-order/main.py:695-744`), used when LLM details are unavailable or
the LLM is disabled. -/
def generateOrderSummaryRegex (transcription : String) (customer_data : Dict)
    (type_of_work : String) (caller : String) (match_data : Option Dict) : String :=
  let company_name := strippedCompanyName customer_data
  let address := addrField customer_data "street" "Address unknown"
  let work_type := type_of_work
  let time_preference := extract_time_preferences transcription
  let access_instructions := extract_access_instructions transcription
  let technician := extract_technician_preference transcription
  let technician_note :=
    if technician ≠ "" then ", palub " ++ technician ++ " tuleks" else ""
  let contact_details := extract_contact_details transcription customer_data caller match_data
  let contact_name := contact_details.firstName
  let contact_phone := contact_details.phone
  let contract_status :=
    if isContractRegex transcription then "lepinguline" else "mitte lepinguline"
  let recurring_indicators :=
    ["perioodiline", "regulaarne", "iga nädal", "iga kuu", "hooldus",
     "aeg-ajalt", "kord kuus"]
  let is_recurring := anyIndicator recurring_indicators transcription
  let recurring_note := if is_recurring then ", perioodiline hooldus" else ""
  let summary := company_name ++ " " ++ work_type ++ recurring_note ++ ", " ++
    address ++ ", " ++ contract_status ++ technician_note ++ ", " ++ time_preference
  let summary :=
    if contact_name ≠ "" then summary ++ ", kontakt on " ++ contact_name else summary
  let summary := summary ++ ", tel " ++ contact_phone
  let summary :=
    if access_instructions ≠ "" then summary ++ ", " ++ access_instructions else summary
  summary ++ ", arvesaaja " ++ company_name

/-- The LLM-details branch of `generate_order_summary`
(`create-order/main.py:594-692`). String fields are read with an
empty-string default; a non-string field would raise a `TypeError` in the
source's unguarded string operations. -/
def generateOrderSummaryLlm (transcription : String) (customer_data : Dict)
    (type_of_work : String) (caller : String) (extracted_details : Dict)
    (match_data : Option Dict) : String :=
  let ed := extracted_details
  let company_info := dgetStrD ed "companyInfo" ""
  let maintenance_type := dgetStrD ed "maintenanceType" ""
  let specific_issue := dgetStrD ed "specificIssue" ""
  let preferred_technician := dgetStrD ed "preferredTechnician" ""
  let time_preference := dgetStrD ed "timePreference" ""
  let location_details := dgetStrD ed "locationDetails" ""
  let access_instructions := dgetStrD ed "accessInstructions" ""
  let contract_status := dgetStrD ed "contractStatus" ""
  let customer_role := dgetStrD ed "customerRole" ""
  let company_name0 := strippedCompanyName customer_data
  let company_name :=
    if company_info ≠ "" ∧ company_info ≠ company_name0 then
      company_name0 ++ " (" ++ company_info ++ ")"
    else company_name0
  let address := addrField customer_data "street" "Address unknown"
  let work_type := type_of_work
  let recurring_note :=
    if maintenance_type ≠ "" ∧ containsSub "periodi" (pyLower maintenance_type) then
      ", perioodiline hooldus"
    else if containsSub "periodi" (pyLower specific_issue) ∨
        containsSub "regulaar" (pyLower specific_issue) then
      ", perioodiline hooldus"
    else if containsSub "aeg-ajalt" (pyLower transcription) ∨
        containsSub "aeg ajalt" (pyLower transcription) then
      ", perioodiline hooldus"
    else ""
  let contract_text :=
    if contractNegated transcription then "mitte lepinguline"
    else if contract_status ≠ "" then
      if containsSub "ei" (pyLower contract_status) ∨
          containsSub "mitte" (pyLower contract_status) ∨
          containsSub "pole" (pyLower contract_status) then "mitte lepinguline"
      else "lepinguline"
    else if isContractRegex transcription then "lepinguline"
    else "mitte lepinguline"
  let technician_note :=
    if preferred_technician ≠ "" then ", palub " ++ preferred_technician ++ " tuleks"
    else ""
  let contact_details := extract_contact_details transcription customer_data caller match_data
  let full_name := pyStrip (contact_details.firstName ++ " " ++ pyStrip contact_details.lastName)
  let contact_name0 :=
    if contact_details.firstName ≠ "Unknown" ∧ full_name ≠ "" then full_name
    else dgetStrD customer_data "name" "Unknown"
  let contact_name :=
    if contact_name0 = "Unknown" ∨ contact_name0 = company_name ∨
        containsSub "OÜ" contact_name0 ∨ containsSub "AS" contact_name0 then ""
    else contact_name0
  let contact_phone := contact_details.phone
  let summary := company_name ++ " " ++ work_type
  let summary := if specific_issue ≠ "" then summary ++ ", " ++ specific_issue else summary
  let summary := summary ++ recurring_note
  let summary := summary ++ ", " ++ address ++ ", " ++ contract_text
  let summary := if location_details ≠ "" then summary ++ ", " ++ location_details else summary
  let summary := summary ++ technician_note
  let summary :=
    if time_preference ≠ "" then summary ++ ", " ++ time_preference
    else
      let regex_time := extract_time_preferences transcription
      if regex_time ≠ "Immediate processing from call" then summary ++ ", " ++ regex_time
      else summary
  let summary :=
    if contact_name ≠ "" then
      let role_text := if customer_role ≠ "" then " (" ++ customer_role ++ ")" else ""
      summary ++ ", kontakt on " ++ contact_name ++ role_text
    else summary
  let summary := summary ++ ", tel " ++ contact_phone
  let summary :=
    if access_instructions ≠ "" then summary ++ ", " ++ access_instructions else summary
  summary ++ ", arvesaaja " ++ company_name

/-- `generate_order_summary` (`create-order/main.py:588-744`): the LLM branch
is taken only when extracted details are a truthy (non-empty) dict AND the
LLM is enabled; otherwise the regex branch runs. -/
def generate_order_summary (transcription : String) (customer_data : Dict)
    (type_of_work : String) (caller : String) (extracted_details : Option Dict)
    (useLlm : Bool) (match_data : Option Dict) : String :=
  match extracted_details with
  | some ed =>
      if ed.isEmpty = false ∧ useLlm then
        generateOrderSummaryLlm transcription customer_data type_of_work caller ed match_data
      else
        generateOrderSummaryRegex transcription customer_data type_of_work caller match_data
  | none =>
      generateOrderSummaryRegex transcription customer_data type_of_work caller match_data

/-! ## create-order: the order payload -/

/-- `customer_data.get("address", {}).get(k, default)` at the value level. -/
def addrFieldVal (customer_data : Dict) (k : String) (default : PyVal) : PyVal :=
  match dget customer_data "address" with
  | some (vDict a) => dgetD a k default
  | _ => default

/-- The `uniqueid` computation (`create-order/main.py:844`):
`transcript_file.split("_")[1].replace(".txt", "")` when an underscore is
present, else `"unknown"`. -/
def uniqueidOf (transcript_file : String) : String :=
  if containsSub "_" transcript_file then
    pyReplace (((pySplitAll transcript_file '_').get? 1).getD "") ".txt" ""
  else "unknown"

/-- The city computation (`create-order/main.py:847-851`): default
`"Tallinn"`, else the part of the customer's city before the first comma,
stripped. -/
def cityOf (customer_data : Dict) : String :=
  match addrFieldVal customer_data "city" vNone with
  | vStr c => if c ≠ "" then pyStrip (pySplitFirst c ',').1 else "Tallinn"
  | _ => "Tallinn"

/-- The `contact.name` expression of the payload (`create-order/main.py:886`)
— also used for the summary's contact name: if the extracted first name is
not the `"Unknown"` sentinel and the assembled full name is non-empty, use
it, else the customer record's name (default `"Unknown"`). -/
def payloadContactName (contact_details : ContactInfo) (customer_data : Dict) : String :=
  let full_name := pyStrip (contact_details.firstName ++ " " ++ pyStrip contact_details.lastName)
  if contact_details.firstName ≠ "Unknown" ∧ full_name ≠ "" then full_name
  else dgetStrD customer_data "name" "Unknown"

/-- The `contact_info` dictionary as it is embedded into the payload. -/
def contactInfoDict (ci : ContactInfo) : Dict :=
  [("firstName", vStr ci.firstName), ("lastName", vStr ci.lastName),
   ("phone", vStr ci.phone), ("email", ci.email)]

/-- The `order_payload` construction (`create-order/main.py:824-899`): work
type and summary are derived from the transcription and customer data, and
`now_str`/`date_str` are the timestamp renderings of the single
`datetime.now` call. `customer_id` is the id taken from the customer match.
`match_data` is the downloaded customer-match content used by the contact
extraction. -/
def buildOrderPayload (transcription : String) (customer_data : Dict)
    (customer_id : PyVal) (caller : String) (transcript_file : String)
    (type_of_work : String) (extracted_details : Option Dict) (useLlm : Bool)
    (match_data : Option Dict) (now_str date_str : String) : Dict :=
  let order_summary := generate_order_summary transcription customer_data
    type_of_work caller extracted_details useLlm match_data
  let contact_details := extract_contact_details transcription customer_data caller match_data
  let time_preference := extract_time_preferences transcription
  let uniqueid := uniqueidOf transcript_file
  let city := cityOf customer_data
  let role : PyVal :=
    match extracted_details with
    | some ed =>
        if ed.isEmpty = false ∧ useLlm then dgetD ed "customerRole" (vStr "Contact Person")
        else vStr "Contact Person"
    | none => vStr "Contact Person"
  [("customer", vDict
      [("customerType", dgetD customer_data "customerType" (vStr "ETTEVÕTE")),
       ("name", dgetD customer_data "name" (vStr "Unknown")),
       ("id", customer_id),
       ("isNewCustomer", vBool false),
       ("contactPerson", vDict (contactInfoDict contact_details))]),
   ("order", vDict
      [("date", vStr date_str),
       ("plannedWorkDuration", vDict
          [("start", vStr now_str), ("end", vStr now_str)]),
       ("additionalTimeInfo", vStr time_preference)]),
   ("location", vDict
      [("object", dgetD customer_data "name" (vStr "Unknown")),
       ("address", vDict
          [("street", addrFieldVal customer_data "street" (vStr "Unknown")),
           ("city", vStr city),
           ("postalCode", addrFieldVal customer_data "postalCode" (vStr "Unknown")),
           ("country", addrFieldVal customer_data "country" (vStr "EE"))]),
       ("additionalInfo", vStr
          (let acc := extract_access_instructions transcription
           if acc ≠ "" then acc else "From automated call processing"))]),
   ("workDetails", vDict
      [("description", vStr (pyTake transcription 500)),
       ("typeOfWork", vStr type_of_work),
       ("problem", vStr (pyTake order_summary 100)),
       ("additionalNotes", vStr order_summary)]),
   ("contact", vDict
      [("name", vStr (payloadContactName contact_details customer_data)),
       ("phone", vStr contact_details.phone),
       ("role", role)]),
   ("payment", vDict
      [("method", vStr "Invoice"), ("terms", vStr "30 days")]),
   ("metadata", vDict
      [("callId", vStr uniqueid),
       ("callTimestamp", vStr now_str),
       ("transcriptionTimestamp", vStr now_str)])]

/-- Remove one key from a dictionary. -/
def derase (d : Dict) (k : String) : Dict := d.filter fun kv => kv.1 ≠ k

/-- Erase the four timestamp-derived fields of an order payload (`order.date`,
`order.plannedWorkDuration`, `metadata.callTimestamp`,
`metadata.transcriptionTimestamp`), leaving everything else intact. -/
def stripTimestampFields (payload : Dict) : Dict :=
  payload.map fun kv =>
    if kv.1 = "order" then
      (kv.1, match kv.2 with
        | vDict o => vDict (derase (derase o "date") "plannedWorkDuration")
        | v => v)
    else if kv.1 = "metadata" then
      (kv.1, match kv.2 with
        | vDict m => vDict (derase (derase m "callTimestamp") "transcriptionTimestamp")
        | v => v)
    else kv

/-! ## match-customer: customer resolution with variation retry -/

/-- A CRM lookup response: HTTP status and the parsed JSON body (`none` when
the body is not valid JSON). -/
structure CrmResp where
  status : Nat
  body : Option Dict

/-- The success test of `try_customer_lookup`
(`match-customer/main.py:398-421`): status 200, parseable JSON, and either no
`customerFound` field or a truthy one. On success the response and its parsed
body are returned; otherwise `none` (the helper returns `None, None`). -/
def lookupSuccess (r : CrmResp) : Option (CrmResp × Dict) :=
  if r.status = 200 then
    match r.body with
    | some result =>
        match dget result "customerFound" with
        | none => some (r, result)
        | some v => if pyTruthy v then some (r, result) else none
    | none => none
  else none

/-- The variation loop (`match-customer/main.py:443-463`): substitute each
variation for `field` in a copy of the criteria and stop at the first
successful lookup. `crm` maps the lookup criteria sent (the `customerType` of
the payload is fixed throughout) to the response. -/
def tryVariations (crm : Dict → CrmResp) (lookup_criteria : Dict)
    (field : String) : List String → Option (CrmResp × Dict)
  | [] => none
  | v :: rest =>
      match lookupSuccess (crm (dinsert lookup_criteria field (vStr v))) with
      | some rd => some rd
      | none => tryVariations crm lookup_criteria field rest

/-- The retry trigger (`main.py:439` and `main.py:454`):
`status != 200 or ("customerFound" in body and not body["customerFound"])`. -/
def lookupFailed (r : CrmResp) (body : Dict) : Bool :=
  r.status ≠ 200 ||
    (match dget body "customerFound" with
     | some v => !pyTruthy v
     | none => false)

/-- The prioritized customer-detail key scan (`main.py:476-495`): the first of
the candidate keys present wins; with none present the whole response object
is used (both fallback branches of the source assign the whole response). -/
def extractCustomerData (customer_response : Dict) : PyVal :=
  let possible_keys := ["customerDetails", "customer", "customerData", "data", "result"]
  match possible_keys.findSome? (fun k => dget customer_response k) with
  | some v => v
  | none => vDict customer_response

/-- The tail of the resolution (`main.py:476-518`): pick the customer detail
mapping, ensure it has an id (placeholder derived from the caller otherwise),
and assemble `output_data`. A non-dict customer detail would raise a
`TypeError` in the source's `"id" not in customer_data` handling; the claims
only exercise dict details. -/
def resolveOutput (customer_response : Dict) (caller : String)
    (llm_data : Dict) (lookup_criteria : Dict) : Except String Dict :=
  match extractCustomerData customer_response with
  | vDict cd0 =>
      let customer_data :=
        if (dget cd0 "id").isNone then
          dinsert cd0 "id" (vStr ("unknown-" ++ caller))
        else cd0
      Except.ok
        [("customerDetails", vDict customer_data),
         ("id", dgetD customer_data "id" (vStr ("unknown-" ++ caller))),
         ("openai_extraction", vDict llm_data),
         ("lookup_criteria", vDict lookup_criteria),
         ("customerFound",
            match dget customer_response "customerFound" with
            | some v => v
            | none => vBool false)]
  | _ => Except.error "TypeError: customer data is not a mapping"

/-- The outcome of the resolution part of `match-customer`'s `main`: either a
raised exception (modelled as `Except.error` with the exception message) or
the `output_data` dictionary persisted to the blob store (`main.py:512-518`). -/
def resolveCustomer (crm : Dict → CrmResp) (lookup_criteria : Dict)
    (phone_variations company_variations : List String) (caller : String)
    (llm_data : Dict) : Except String Dict :=
  let r0 := crm lookup_criteria
  match r0.body with
  | none => Except.error "Failed to parse customer search response as JSON"
  | some body0 =>
      -- variation retries (main.py:439-463)
      let afterPhone : CrmResp × Dict :=
        if lookupFailed r0 body0 then
          match tryVariations crm lookup_criteria "phoneNumber" phone_variations with
          | some rd => rd
          | none => (r0, body0)
        else (r0, body0)
      let final : CrmResp × Dict :=
        if lookupFailed afterPhone.1 afterPhone.2 ∧ company_variations ≠ [] then
          match tryVariations crm lookup_criteria "companyName" company_variations with
          | some rd => rd
          | none => afterPhone
        else afterPhone
      let response := final.1
      let customer_response := final.2
      -- response.raise_for_status() (main.py:466)
      if 400 ≤ response.status then
        Except.error ("HTTP error " ++ toString response.status)
      -- explicit business "not found" (main.py:472-474)
      else
        match dget customer_response "customerFound" with
        | some v =>
            if !pyTruthy v then
              Except.error ("Customer matching failed: " ++
                dgetStrD customer_response "message" "No customer found")
            else
              resolveOutput customer_response caller llm_data lookup_criteria
        | none => resolveOutput customer_response caller llm_data lookup_criteria

/-- CRM oracle for the spec's drop-first-variation scenario: lookups with
`phoneNumber = "2345678"` find customer `cust-42`; every other lookup answers
200 with `customerFound: false`. -/
def crmDropFirstScenario : Dict → CrmResp := fun c =>
  match dget c "phoneNumber" with
  | some (vStr s) =>
      if s = "2345678" then
        ⟨200, some [("customerFound", vBool true),
          ("customerDetails", vDict [("id", vStr "cust-42")])]⟩
      else ⟨200, some [("customerFound", vBool false)]⟩
  | _ => ⟨200, some [("customerFound", vBool false)]⟩

/-- CRM oracle that never finds a customer: every lookup answers 200 with
`customerFound: false`. -/
def crmNeverFound : Dict → CrmResp :=
  fun _ => ⟨200, some [("customerFound", vBool false)]⟩

/-! # Dictionary lemmas -/

theorem dget_dinsert_self (d : Dict) (k : String) (v : PyVal) :
    dget (dinsert d k v) k = some v := by
  induction d with
  | nil => simp [dinsert, dget]
  | cons kv rest ih =>
      obtain ⟨k0, v0⟩ := kv
      by_cases h : k0 = k
      · simp [dinsert, dget, h]
      · simp [dinsert, dget, h, ih]

theorem dget_dinsert_ne (d : Dict) (k k' : String) (v : PyVal) (h : k' ≠ k) :
    dget (dinsert d k v) k' = dget d k' := by
  have h' : k ≠ k' := Ne.symm h
  induction d with
  | nil => simp [dinsert, dget, h']
  | cons kv rest ih =>
      obtain ⟨k0, v0⟩ := kv
      by_cases h0 : k0 = k
      · subst h0
        simp [dinsert, dget, h']
      · by_cases h1 : k0 = k'
        · subst h1
          simp [dinsert, dget, h0]
        · simp [dinsert, dget, h0, h1, ih]

theorem dget_none_of_not_mem_dkeys (d : Dict) (k : String)
    (h : k ∉ dkeys d) : dget d k = none := by
  induction d with
  | nil => simp [dget]
  | cons kv rest ih =>
      simp only [dkeys, List.map_cons, List.mem_cons] at h
      push_neg at h
      have h1 : kv.1 ≠ k := Ne.symm h.1
      simp [dget, h1, ih (by simpa [dkeys] using h.2)]

theorem mem_dkeys_of_dget_some (d : Dict) (k : String) (v : PyVal)
    (h : dget d k = some v) : k ∈ dkeys d := by
  by_contra hn
  rw [dget_none_of_not_mem_dkeys d k hn] at h
  exact Option.noConfusion h

theorem dget_some_mem (d : Dict) (k : String) (v : PyVal)
    (h : dget d k = some v) : (k, v) ∈ d := by
  induction d with
  | nil => simp [dget] at h
  | cons kv rest ih =>
      obtain ⟨k0, v0⟩ := kv
      by_cases h0 : k0 = k
      · subst h0
        simp [dget] at h
        simp [h]
      · simp only [dget, h0, if_false] at h
        exact List.mem_cons_of_mem _ (ih h)

theorem dget_dunion_absent (b : Dict) : ∀ (a : Dict) (k : String),
    dget b k = none → dget (dunion a b) k = dget a k := by
  induction b with
  | nil => intro a k _; rfl
  | cons kv rest ih =>
      intro a k h
      obtain ⟨k0, v0⟩ := kv
      by_cases h0 : k0 = k
      · simp [dget, h0] at h
      · simp only [dget, h0, if_false] at h
        show dget (dunion (dinsert a k0 v0) rest) k = dget a k
        rw [ih (dinsert a k0 v0) k h, dget_dinsert_ne a k0 k v0 fun e => h0 e.symm]

theorem dget_dunion_nodup (b : Dict) : ∀ (a : Dict) (k : String) (v : PyVal),
    (dkeys b).Nodup → dget b k = some v → dget (dunion a b) k = some v := by
  induction b with
  | nil => intro a k v _ h; simp [dget] at h
  | cons kv rest ih =>
      intro a k v hnd h
      obtain ⟨k0, v0⟩ := kv
      simp only [dkeys, List.map_cons, List.nodup_cons] at hnd
      by_cases h0 : k0 = k
      · subst h0
        simp [dget] at h
        show dget (dunion (dinsert a k0 v0) rest) k0 = some v
        rw [dget_dunion_absent rest (dinsert a k0 v0) k0
          (dget_none_of_not_mem_dkeys rest k0 (by simpa [dkeys] using hnd.1))]
        rw [dget_dinsert_self a k0 v0, h]
      · simp only [dget, h0, if_false] at h
        exact ih (dinsert a k0 v0) k v (by simpa [dkeys] using hnd.2) h

theorem dget_filter_of_none (p : String × PyVal → Bool) (d : Dict) (k : String)
    (h : dget d k = none) : dget (d.filter p) k = none := by
  induction d with
  | nil => simp [dget]
  | cons kv rest ih =>
      obtain ⟨k0, v0⟩ := kv
      by_cases h0 : k0 = k
      · simp [dget, h0] at h
      · simp only [dget, h0, if_false] at h
        by_cases hp : p (k0, v0)
        · simp [List.filter, hp, dget, h0, ih h]
        · simp [List.filter, hp, ih h]

theorem dget_filter_pos (p : String × PyVal → Bool) (d : Dict) (k : String)
    (v : PyVal) (h : dget d k = some v) (hp : p (k, v) = true) :
    dget (d.filter p) k = some v := by
  induction d with
  | nil => simp [dget] at h
  | cons kv rest ih =>
      obtain ⟨k0, v0⟩ := kv
      by_cases h0 : k0 = k
      · subst h0
        simp [dget] at h
        subst h
        simp [List.filter, hp, dget]
      · simp only [dget, h0, if_false] at h
        by_cases hq : p (k0, v0)
        · simp [List.filter, hq, dget, h0, ih h]
        · simp [List.filter, hq, ih h]

theorem dget_filter_neg_nodup (p : String × PyVal → Bool) (d : Dict)
    (k : String) (v : PyVal) (hnd : (dkeys d).Nodup)
    (h : dget d k = some v) (hp : p (k, v) = false) :
    dget (d.filter p) k = none := by
  induction d with
  | nil => simp [dget] at h
  | cons kv rest ih =>
      obtain ⟨k0, v0⟩ := kv
      simp only [dkeys, List.map_cons, List.nodup_cons] at hnd
      by_cases h0 : k0 = k
      · subst h0
        simp [dget] at h
        subst h
        simp only [List.filter, hp]
        exact dget_filter_of_none p rest k0
          (dget_none_of_not_mem_dkeys rest k0 (by simpa [dkeys] using hnd.1))
      · simp only [dget, h0, if_false] at h
        have ih' := ih (by simpa [dkeys] using hnd.2) h
        by_cases hq : p (k0, v0)
        · simp [List.filter, hq, dget, h0, ih']
        · simp [List.filter, hq, ih']

theorem mem_dkeys_dinsert (d : Dict) (k a : String) (v : PyVal) :
    a ∈ dkeys (dinsert d k v) ↔ a ∈ dkeys d ∨ a = k := by
  induction d with
  | nil => simp [dinsert, dkeys]
  | cons kv rest ih =>
      obtain ⟨k0, v0⟩ := kv
      by_cases h0 : k0 = k
      · subst h0
        simp [dinsert, dkeys]
        tauto
      · simp only [dinsert, h0, if_false, dkeys, List.map_cons, List.mem_cons]
        rw [show List.map Prod.fst (dinsert rest k v) = dkeys (dinsert rest k v) from rfl, ih]
        simp [dkeys]
        tauto

theorem nodup_dkeys_dinsert (d : Dict) (k : String) (v : PyVal)
    (hnd : (dkeys d).Nodup) : (dkeys (dinsert d k v)).Nodup := by
  induction d with
  | nil => simp [dinsert, dkeys]
  | cons kv rest ih =>
      obtain ⟨k0, v0⟩ := kv
      simp only [dkeys, List.map_cons, List.nodup_cons] at hnd
      by_cases h0 : k0 = k
      · subst h0
        have e : dinsert ((k0, v0) :: rest) k0 v = (k0, v) :: rest := by
          simp [dinsert]
        rw [e]
        simp only [dkeys, List.map_cons, List.nodup_cons]
        exact ⟨by simpa [dkeys] using hnd.1, by simpa [dkeys] using hnd.2⟩
      · simp only [dinsert, h0, if_false, dkeys, List.map_cons, List.nodup_cons]
        constructor
        · intro hmem
          rcases (mem_dkeys_dinsert rest k k0 v).1 (by simpa [dkeys] using hmem) with h | h
          · exact hnd.1 (by simpa [dkeys] using h)
          · exact h0 h
        · exact by simpa [dkeys] using ih (by simpa [dkeys] using hnd.2)

theorem nodup_dkeys_dunion (b : Dict) : ∀ (a : Dict),
    (dkeys a).Nodup → (dkeys (dunion a b)).Nodup := by
  induction b with
  | nil => intro a h; exact h
  | cons kv rest ih =>
      intro a h
      exact ih (dinsert a kv.1 kv.2) (nodup_dkeys_dinsert a kv.1 kv.2 h)

theorem isSome_dget_dinsert (d : Dict) (k a : String) (v : PyVal)
    (h : (dget d a).isSome) : (dget (dinsert d k v) a).isSome := by
  by_cases h0 : a = k
  · subst h0
    rw [dget_dinsert_self]
    rfl
  · rwa [dget_dinsert_ne d k a v h0]

theorem isSome_dget_dunion_left (b : Dict) : ∀ (a : Dict) (k : String),
    (dget a k).isSome → (dget (dunion a b) k).isSome := by
  induction b with
  | nil => intro a k h; exact h
  | cons kv rest ih =>
      intro a k h
      exact ih (dinsert a kv.1 kv.2) k (isSome_dget_dinsert a kv.1 k kv.2 h)

theorem isSome_dget_dunion_right (b : Dict) : ∀ (a : Dict) (k : String),
    k ∈ dkeys b → (dget (dunion a b) k).isSome := by
  induction b with
  | nil => intro a k h; simp [dkeys] at h
  | cons kv rest ih =>
      intro a k h
      simp only [dkeys, List.map_cons, List.mem_cons] at h
      rcases h with h | h
      · subst h
        exact isSome_dget_dunion_left rest (dinsert a kv.1 kv.2) kv.1
          (by rw [dget_dinsert_self]; rfl)
      · exact ih (dinsert a kv.1 kv.2) k (by simpa [dkeys] using h)

theorem dget_dunion_keep_nonnull (b : Dict) :
    ∀ (a : Dict) (k : String),
      (∃ v, dget a k = some v ∧ isPyNone v = false) →
      (∀ kv ∈ b, kv.1 = k → isPyNone kv.2 = false) →
      ∃ v, dget (dunion a b) k = some v ∧ isPyNone v = false := by
  induction b with
  | nil => intro a k h _; exact h
  | cons kv rest ih =>
      intro a k h hb
      obtain ⟨k0, v0⟩ := kv
      apply ih (dinsert a k0 v0) k
      · by_cases h0 : k0 = k
        · subst h0
          exact ⟨v0, dget_dinsert_self a k0 v0, hb (k0, v0) (List.mem_cons_self _ _) rfl⟩
        · obtain ⟨v, hv, hnn⟩ := h
          exact ⟨v, by rw [dget_dinsert_ne a k0 k v0 fun e => h0 e.symm]; exact hv, hnn⟩
      · intro kv' hmem hk
        exact hb kv' (List.mem_cons_of_mem _ hmem) hk

theorem isPyNone_false_of_isNullish_false (v : PyVal)
    (h : isNullish v = false) : isPyNone v = false := by
  cases v <;> simp_all [isNullish, isPyNone]

/-! # Lemmas about the merged lookup criteria -/

theorem nodup_dkeys_openaiFilter (llmRaw : Dict)
    (hnd : (dkeys llmRaw).Nodup) : (dkeys (openaiFilter llmRaw)).Nodup :=
  hnd.sublist ((List.filter_sublist llmRaw).map Prod.fst)

theorem isNullish_false_of_mem_openaiFilter (llmRaw : Dict) (kv : String × PyVal)
    (h : kv ∈ openaiFilter llmRaw) : isNullish kv.2 = false := by
  have := (List.mem_filter.1 h).2
  simpa using this

theorem dget_backfillPhone_of_some (d : Dict) (caller F : String) (v : PyVal)
    (h : dget d F = some v) : dget (backfillPhone d caller) F = some v := by
  unfold backfillPhone
  split
  · rename_i hc
    have hF : F ≠ "phoneNumber" := by
      intro e
      subst e
      rw [h] at hc
      exact Option.noConfusion (Option.isNone_iff_eq_none.1 hc.1)
    rw [dget_dinsert_ne d "phoneNumber" F (vStr caller) hF]
    exact h
  · exact h

/-- C1: if LLM-primary is enabled and the (filtered) LLM extraction is a
non-empty mapping containing field `F`, then the final merged lookup criteria
map `F` to the LLM extractor's value, regardless of the regex extractor's
result. -/
theorem c1_llm_primary_field_precedence
    (regex_results llmRaw : Dict) (caller F : String) (v : PyVal)
    (hnd : (dkeys llmRaw).Nodup)
    (hne : (openaiFilter llmRaw).isEmpty = false)
    (hF : dget (openaiFilter llmRaw) F = some v) :
    dget (finalLookupCriteria regex_results (openaiFilter llmRaw) true caller) F = some v := by
  have hndf : (dkeys (openaiFilter llmRaw)).Nodup := nodup_dkeys_openaiFilter llmRaw hnd
  have hnn : isPyNone v = false :=
    isPyNone_false_of_isNullish_false v
      (isNullish_false_of_mem_openaiFilter llmRaw (F, v)
        (dget_some_mem _ F v hF))
  have hmerge : mergeCriteria regex_results (openaiFilter llmRaw) true =
      dunion regex_results (openaiFilter llmRaw) := by
    simp [mergeCriteria, hne]
  unfold finalLookupCriteria
  rw [hmerge]
  have h1 : dget (dunion regex_results (openaiFilter llmRaw)) F = some v :=
    dget_dunion_nodup _ regex_results F v hndf hF
  have h2 := dget_backfillPhone_of_some _ caller F v h1
  exact dget_filter_pos _ _ F v h2 (by simp [hnn])

/-- Witness for C1 at concrete inputs: the regex extractor said
`phoneNumber = "111"`, the LLM said `phoneNumber = "222"` (and a null `name`,
which is filtered out); with LLM-primary the merged criteria carry `"222"`. -/
theorem c1_llm_primary_field_precedence_witness :
    (dkeys [("phoneNumber", vStr "222"), ("name", vNone)]).Nodup ∧
    (openaiFilter [("phoneNumber", vStr "222"), ("name", vNone)]).isEmpty = false ∧
    dget (finalLookupCriteria
      [("phoneNumber", vStr "111"), ("customerType", vStr "ERAKLIENT")]
      (openaiFilter [("phoneNumber", vStr "222"), ("name", vNone)])
      true "caller") "phoneNumber" = some (vStr "222") :=
  ⟨by decide, by rfl,
   c1_llm_primary_field_precedence
     [("phoneNumber", vStr "111"), ("customerType", vStr "ERAKLIENT")]
     [("phoneNumber", vStr "222"), ("name", vNone)]
     "caller" "phoneNumber" (vStr "222") (by decide) (by rfl) (by rfl)⟩

/-! # The keyword classifier's scoring fold -/

theorem keywordFold_spec (tl : String) :
    ∀ (l : List (String × List String)) (b : Option String) (s : Nat),
      (keywordFold tl l (b, s) = (b, s) ∧ ∀ sk ∈ l, keywordScore tl sk.2 ≤ s) ∨
      (∃ l₁ sk l₂, l = l₁ ++ sk :: l₂ ∧
        keywordFold tl l (b, s) = (some sk.1, keywordScore tl sk.2) ∧
        s < keywordScore tl sk.2 ∧
        (∀ q ∈ l₁, keywordScore tl q.2 < keywordScore tl sk.2) ∧
        (∀ q ∈ l₂, keywordScore tl q.2 ≤ keywordScore tl sk.2)) := by
  intro l
  induction l with
  | nil => intro b s; exact Or.inl ⟨rfl, by simp⟩
  | cons x rest ih =>
      intro b s
      have hstep : keywordFold tl (x :: rest) (b, s) =
          keywordFold tl rest
            (if keywordScore tl x.2 > s then (some x.1, keywordScore tl x.2)
             else (b, s)) := rfl
      by_cases hx : keywordScore tl x.2 > s
      · rw [if_pos hx] at hstep
        rcases ih (some x.1) (keywordScore tl x.2) with
          ⟨heq, hle⟩ | ⟨l₁, sk, l₂, hl, heq, hlt, h₁, h₂⟩
        · refine Or.inr ⟨[], x, rest, by simp, ?_, hx, by simp, hle⟩
          rw [hstep, heq]
        · refine Or.inr ⟨x :: l₁, sk, l₂, by simp [hl], ?_, lt_trans hx hlt, ?_, h₂⟩
          · rw [hstep, heq]
          · intro q hq
            rcases List.mem_cons.1 hq with h | h
            · subst h; exact hlt
            · exact h₁ q h
      · rw [if_neg hx] at hstep
        have hx' : keywordScore tl x.2 ≤ s := not_lt.1 hx
        rcases ih b s with ⟨heq, hle⟩ | ⟨l₁, sk, l₂, hl, heq, hlt, h₁, h₂⟩
        · refine Or.inl ⟨by rw [hstep, heq], ?_⟩
          intro q hq
          rcases List.mem_cons.1 hq with h | h
          · subst h; exact hx'
          · exact hle q h
        · refine Or.inr ⟨x :: l₁, sk, l₂, by simp [hl], by rw [hstep, heq], hlt, ?_, h₂⟩
          intro q hq
          rcases List.mem_cons.1 hq with h | h
          · subst h; exact lt_of_le_of_lt hx' hlt
          · exact h₁ q h

/-- Every key of the keyword table is a member of the closed service list. -/
theorem service_keywords_keys_valid :
    ∀ sk ∈ SERVICE_KEYWORDS, sk.1 ∈ TORUABI_SERVICES := by decide

/-- `"Muu"` is a member of the closed service list. -/
theorem muu_in_services : "Muu" ∈ TORUABI_SERVICES := by decide

/-- C2: for every transcript the keyword classifier returns a member of the
17-element service list; with zero keyword hits it returns the catch-all
`"Muu"`; otherwise its result is the first service in table order whose score
strictly exceeds every earlier service's score and is at least every later
service's score (that is, the first-seen maximum with a positive score). -/
theorem c2_keyword_classifier (transcription : String) :
    determine_type_of_work_with_keywords transcription ∈ TORUABI_SERVICES ∧
    ((∀ sk ∈ SERVICE_KEYWORDS, keywordScore (pyLower transcription) sk.2 = 0) →
      determine_type_of_work_with_keywords transcription = "Muu") ∧
    ((∀ sk ∈ SERVICE_KEYWORDS, keywordScore (pyLower transcription) sk.2 = 0) ∨
      ∃ l₁ sk l₂, SERVICE_KEYWORDS = l₁ ++ sk :: l₂ ∧
        determine_type_of_work_with_keywords transcription = sk.1 ∧
        0 < keywordScore (pyLower transcription) sk.2 ∧
        (∀ q ∈ l₁, keywordScore (pyLower transcription) q.2 <
          keywordScore (pyLower transcription) sk.2) ∧
        (∀ q ∈ l₂, keywordScore (pyLower transcription) q.2 ≤
          keywordScore (pyLower transcription) sk.2)) := by
  have hdef : determine_type_of_work_with_keywords transcription =
      (match (keywordFold (pyLower transcription) SERVICE_KEYWORDS (none, 0)).1 with
       | some bm => bm
       | none => "Muu") := rfl
  rcases keywordFold_spec (pyLower transcription) SERVICE_KEYWORDS none 0 with
    ⟨heq, hle⟩ | ⟨l₁, sk, l₂, hl, heq, hlt, h₁, h₂⟩
  · have hres : determine_type_of_work_with_keywords transcription = "Muu" := by
      rw [hdef, heq]
    refine ⟨hres ▸ muu_in_services, fun _ => hres, Or.inl ?_⟩
    intro q hq
    exact Nat.le_zero.1 (hle q hq)
  · have hres : determine_type_of_work_with_keywords transcription = sk.1 := by
      rw [hdef, heq]
    have hmem : sk ∈ SERVICE_KEYWORDS := by
      rw [hl]
      exact List.mem_append.2 (Or.inr (List.mem_cons_self _ _))
    refine ⟨hres ▸ service_keywords_keys_valid sk hmem, ?_, ?_⟩
    · intro hzero
      exact absurd (hzero sk hmem) (by omega)
    · exact Or.inr ⟨l₁, sk, l₂, hl, hres, hlt, h₁, h₂⟩

/-- Witness for C2: the spec's scenario transcript classifies to
"Ummistuse likvideerimine" (which is in the closed set), and the empty
transcript (zero hits everywhere) classifies to "Muu". -/
theorem c2_keyword_classifier_witness :
    determine_type_of_work_with_keywords "ummistus kylpetoas" ∈ TORUABI_SERVICES ∧
    determine_type_of_work_with_keywords "" = "Muu" :=
  ⟨(c2_keyword_classifier "ummistus kylpetoas").1,
   (c2_keyword_classifier "").2.1 (by decide)⟩

/-! # Phone variations (C4) -/

theorem pyLen_append (a b : String) : pyLen (a ++ b) = pyLen a + pyLen b := by
  simp [pyLen]

theorem pyLen_pyDrop (s : String) (n : Nat) : pyLen (pyDrop s n) = pyLen s - n := by
  simp [pyLen, pyDrop]

theorem pyLen_pyDropLast (s : String) : pyLen (pyDropLast s) = pyLen s - 1 := by
  simp [pyLen, pyDropLast]

theorem startsWithL_singleton_of_cons (p0 : Char) (ps l : List Char)
    (h : startsWithL (p0 :: ps) l = true) : startsWithL [p0] l = true := by
  cases l with
  | nil => simp [startsWithL] at h
  | cons c cs =>
      simp only [startsWithL, Bool.and_eq_true] at h ⊢
      exact ⟨h.1, trivial⟩

theorem pyStartsWith_plus_of_plus372 (s : String)
    (h : pyStartsWith s "+372" = true) : pyStartsWith s "+" = true := by
  have h' : startsWithL ('+' :: ['3', '7', '2']) s.data = true := h
  show startsWithL ['+'] s.data = true
  exact startsWithL_singleton_of_cons '+' ['3', '7', '2'] s.data h'

/-- C4: variation generation for a cleaned phone longer than 6 characters.
When it starts with `+372` the candidate list is exactly
[drop-first, drop-last, strip-prefix] in that order; when it starts with `+`
the add-prefix candidate is never generated; when it does not start with `+`
the third candidate is the add-prefix variation. -/
theorem c4_phone_variation_order (p : String) :
    (pyLen (cleanPhoneStr p) > 6 →
      pyStartsWith (cleanPhoneStr p) "+372" = true →
      phoneVariations p = [pyDrop (cleanPhoneStr p) 1, pyDropLast (cleanPhoneStr p),
        pyDrop (cleanPhoneStr p) 4]) ∧
    (pyStartsWith (cleanPhoneStr p) "+" = true →
      ("+372" ++ cleanPhoneStr p) ∉ phoneVariations p) ∧
    (pyLen (cleanPhoneStr p) > 6 →
      pyStartsWith (cleanPhoneStr p) "+" = false →
      phoneVariations p = [pyDrop (cleanPhoneStr p) 1, pyDropLast (cleanPhoneStr p),
        "+372" ++ cleanPhoneStr p]) := by
  have h4 : pyLen "+372" = 4 := by decide
  refine ⟨?_, ?_, ?_⟩
  · intro hlen h372
    simp [phoneVariations, hlen, h372]
  · intro hplus
    by_cases hlen : pyLen (cleanPhoneStr p) > 6
    · by_cases h372 : pyStartsWith (cleanPhoneStr p) "+372" = true
      · have e : phoneVariations p = [pyDrop (cleanPhoneStr p) 1,
            pyDropLast (cleanPhoneStr p), pyDrop (cleanPhoneStr p) 4] := by
          simp [phoneVariations, hlen, h372]
        rw [e]
        intro hmem
        simp only [List.mem_cons, List.not_mem_nil, or_false] at hmem
        rcases hmem with h | h | h
        · have := congrArg pyLen h
          rw [pyLen_append, pyLen_pyDrop, h4] at this
          omega
        · have := congrArg pyLen h
          rw [pyLen_append, pyLen_pyDropLast, h4] at this
          omega
        · have := congrArg pyLen h
          rw [pyLen_append, pyLen_pyDrop, h4] at this
          omega
      · have h372' : pyStartsWith (cleanPhoneStr p) "+372" = false := by
          revert h372
          cases pyStartsWith (cleanPhoneStr p) "+372" <;> simp
        have e : phoneVariations p = [pyDrop (cleanPhoneStr p) 1,
            pyDropLast (cleanPhoneStr p)] := by
          simp [phoneVariations, hlen, h372', hplus]
        rw [e]
        intro hmem
        simp only [List.mem_cons, List.not_mem_nil, or_false] at hmem
        rcases hmem with h | h
        · have := congrArg pyLen h
          rw [pyLen_append, pyLen_pyDrop, h4] at this
          omega
        · have := congrArg pyLen h
          rw [pyLen_append, pyLen_pyDropLast, h4] at this
          omega
    · simp [phoneVariations, hlen]
  · intro hlen hplus
    have h372 : pyStartsWith (cleanPhoneStr p) "+372" = false := by
      cases h : pyStartsWith (cleanPhoneStr p) "+372"
      · rfl
      · rw [pyStartsWith_plus_of_plus372 _ h] at hplus
        exact Bool.noConfusion hplus
    simp [phoneVariations, hlen, h372, hplus]

/-- Witness for C4: for the spec's concrete phone `"+37256789012"` the
candidate list is exactly drop-first, drop-last, strip-prefix. -/
theorem c4_phone_variation_order_witness :
    pyLen (cleanPhoneStr "+37256789012") > 6 ∧
    pyStartsWith (cleanPhoneStr "+37256789012") "+372" = true ∧
    phoneVariations "+37256789012" = ["37256789012", "+3725678901", "56789012"] := by
  refine ⟨by decide, by rfl, ?_⟩
  have h := (c4_phone_variation_order "+37256789012").1 (by decide) (by rfl)
  rw [h]
  rfl

/-! # Absent fields in the merged criteria (C3) -/

/-- Counterexample to C3 as stated: for the empty transcript the regex
extractor has no `phoneNumber` and the LLM extraction is empty, yet the final
merged lookup criteria DO contain `phoneNumber` — the caller id is backfilled
(`match-customer/main.py:327-328`). -/
theorem c3_counterexample :
    dget (extract_customer_info_with_regex "") "phoneNumber" = none ∧
    dget (openaiFilter []) "phoneNumber" = none ∧
    dget (finalLookupCriteria (extract_customer_info_with_regex "")
      (openaiFilter []) false "5551234") "phoneNumber" = some (vStr "5551234") :=
  ⟨rfl, rfl, rfl⟩

/-- C3 (amended): a field that is null or absent in both the regex extraction
and the raw LLM extraction never appears in the final merged lookup criteria —
except `phoneNumber`, which is backfilled with the caller id when it is absent
after the merge and the caller id is not the sentinel `"test"`. -/
theorem c3_amended_absent_fields (regex_results llmRaw : Dict)
    (llm_primary : Bool) (caller F : String)
    (hndr : (dkeys regex_results).Nodup) (hndl : (dkeys llmRaw).Nodup)
    (hr : dget regex_results F = none ∨ dget regex_results F = some vNone)
    (hl : dget llmRaw F = none ∨ dget llmRaw F = some vNone)
    (hex : F ≠ "phoneNumber" ∨ caller = "test") :
    dget (finalLookupCriteria regex_results (openaiFilter llmRaw) llm_primary caller)
      F = none := by
  -- the filtered LLM extraction has no binding for F
  have hlf : dget (openaiFilter llmRaw) F = none := by
    rcases hl with h | h
    · exact dget_filter_of_none _ llmRaw F h
    · exact dget_filter_neg_nodup _ llmRaw F vNone hndl h (by simp [isNullish])
  have hndlf : (dkeys (openaiFilter llmRaw)).Nodup := nodup_dkeys_openaiFilter llmRaw hndl
  -- the merge gives F either nothing or None
  have hM : dget (mergeCriteria regex_results (openaiFilter llmRaw) llm_primary) F = none ∨
      dget (mergeCriteria regex_results (openaiFilter llmRaw) llm_primary) F = some vNone := by
    unfold mergeCriteria
    split
    · rw [dget_dunion_absent _ _ _ hlf]
      exact hr
    · rcases hr with h | h
      · rw [dget_dunion_absent _ _ _ h]
        exact Or.inl hlf
      · exact Or.inr (dget_dunion_nodup _ _ _ _ hndr h)
  have hndM : (dkeys (mergeCriteria regex_results (openaiFilter llmRaw) llm_primary)).Nodup := by
    unfold mergeCriteria
    split
    · exact nodup_dkeys_dunion _ regex_results hndr
    · exact nodup_dkeys_dunion _ (openaiFilter llmRaw) hndlf
  -- the backfill never touches F
  set M := mergeCriteria regex_results (openaiFilter llmRaw) llm_primary with hMdef
  have hB : dget (backfillPhone M caller) F = dget M F := by
    unfold backfillPhone
    split
    · rename_i hc
      have hF : F ≠ "phoneNumber" := by
        rcases hex with h | h
        · exact h
        · exact absurd h hc.2
      exact dget_dinsert_ne M "phoneNumber" F (vStr caller) hF
    · rfl
  have hndB : (dkeys (backfillPhone M caller)).Nodup := by
    unfold backfillPhone
    split
    · exact nodup_dkeys_dinsert M "phoneNumber" (vStr caller) hndM
    · exact hndM
  -- the None-removal removes what remains
  show dget (removeNoneValues (backfillPhone M caller)) F = none
  rcases hM with h | h
  · exact dget_filter_of_none _ _ F (hB.trans h)
  · exact dget_filter_neg_nodup _ _ F vNone hndB (hB.trans h) (by simp [isPyNone])

/-- Witness for the amended C3: with concrete extractor outputs in which
`email` is absent on the regex side and null on the LLM side, the merged
criteria have no `email`. -/
theorem c3_amended_absent_fields_witness :
    dget [("customerType", vStr "ERAKLIENT")] "email" = none ∧
    dget [("email", vNone), ("name", vStr "Mari")] "email" = some vNone ∧
    dget (finalLookupCriteria [("customerType", vStr "ERAKLIENT")]
      (openaiFilter [("email", vNone), ("name", vStr "Mari")]) true "555") "email" = none :=
  ⟨rfl, rfl,
   c3_amended_absent_fields [("customerType", vStr "ERAKLIENT")]
     [("email", vNone), ("name", vStr "Mari")] true "555" "email"
     (by decide) (by decide) (Or.inl (by rfl)) (Or.inr (by rfl))
     (Or.inl (by decide))⟩

/-! # Variation lookup and the terminal not-found outcome (C5, C6) -/

/-- Counterexample to C5 as stated: in the spec's drop-first scenario the
resolver succeeds via the variation `"2345678"`, but the persisted
`lookup_criteria` field still holds the ORIGINAL criteria
(`{"phoneNumber": "12345678"}`), not the variation actually used. -/
theorem c5_counterexample :
    (resolveCustomer crmDropFirstScenario [("phoneNumber", vStr "12345678")]
        (phoneVariations "12345678") [] "555" []).map
      (fun out => dget out "lookup_criteria") =
      Except.ok (some (vDict [("phoneNumber", vStr "12345678")])) ∧
    ("12345678" : String) ≠ "2345678" :=
  ⟨rfl, by decide⟩

/-- C5 (amended): in the drop-first scenario the resolver returns the
variation response's customer detail, reports `customerFound`, and records
the original merged criteria (the variation used is not persisted). -/
theorem c5_amended_variation_result :
    resolveCustomer crmDropFirstScenario [("phoneNumber", vStr "12345678")]
      (phoneVariations "12345678") [] "555" [] =
      Except.ok
        [("customerDetails", vDict [("id", vStr "cust-42")]),
         ("id", vStr "cust-42"),
         ("openai_extraction", vDict []),
         ("lookup_criteria", vDict [("phoneNumber", vStr "12345678")]),
         ("customerFound", vBool true)] := rfl

/-- Counterexample to C6 as stated: when the CRM never finds the customer the
invocation does NOT end without raising — the resolver raises
`Customer matching failed: ...` (`match-customer/main.py:472-474`), re-raised
at the invocation boundary (`main.py:546-548`). -/
theorem c6_counterexample :
    resolveCustomer crmNeverFound [("phoneNumber", vStr "12345678")]
      (phoneVariations "12345678") [] "555" [] =
      Except.error "Customer matching failed: No customer found" := rfl

/-- C6 (amended): when the original lookup and every variation return 200 with
`customerFound: false`, the last response is propagated and the invocation
raises `Customer matching failed: No customer found` — the terminal not-found
is surfaced as an exception, not as a handled non-raising outcome. -/
theorem c6_amended_not_found_raises (crm : Dict → CrmResp) (crit : Dict)
    (pv cv : List String) (caller : String) (llm : Dict)
    (h : ∀ c, crm c = ⟨200, some [("customerFound", vBool false)]⟩) :
    resolveCustomer crm crit pv cv caller llm =
      Except.error "Customer matching failed: No customer found" := by
  have hls : ∀ c, lookupSuccess (crm c) = none := by
    intro c
    rw [h c]
    rfl
  have htv : ∀ (field : String) (vars : List String),
      tryVariations crm crit field vars = none := by
    intro field vars
    induction vars with
    | nil => rfl
    | cons v rest ih => simp [tryVariations, hls, ih]
  unfold resolveCustomer
  rw [h crit]
  simp only [htv]
  simp [lookupFailed, dget, pyTruthy, dgetStrD]

/-- Witness for the amended C6 at concrete inputs with both phone and company
variations present. -/
theorem c6_amended_not_found_raises_witness :
    resolveCustomer crmNeverFound
      [("phoneNumber", vStr "12345678"), ("companyName", vStr "Acme OÜ")]
      (phoneVariations "12345678") (companyVariations "Acme OÜ") "555" [] =
      Except.error "Customer matching failed: No customer found" :=
  c6_amended_not_found_raises crmNeverFound
    [("phoneNumber", vStr "12345678"), ("companyName", vStr "Acme OÜ")]
    (phoneVariations "12345678") (companyVariations "Acme OÜ") "555" []
    (fun _ => rfl)

/-! # Invalid LLM work type discards the whole extraction (C7) -/

/-- C7: if the first LLM attempt returns a 200 response whose parsed object
carries a `typeOfWork` outside the closed service set, the whole extraction is
discarded (the extractor returns nothing), work-type determination returns the
keyword result with no extracted details, and summary synthesis (with no
details) takes the regex-only path. -/
theorem c7_invalid_work_type_discards_extraction
    (d : Dict) (s : String) (rest : List LlmAttempt)
    (transcription caller : String) (customer_data : Dict)
    (type_of_work : String) (useLlm llmPrimary : Bool) (match_data : Option Dict)
    (h1 : dget d "typeOfWork" = some (vStr s)) (h2 : s ∉ TORUABI_SERVICES) :
    determine_type_of_work_with_openai (LlmAttempt.parsed d :: rest) = none ∧
    determine_type_of_work transcription useLlm llmPrimary
      (LlmAttempt.parsed d :: rest) =
      (determine_type_of_work_with_keywords transcription, none) ∧
    generate_order_summary transcription customer_data type_of_work caller
      none useLlm match_data =
      generateOrderSummaryRegex transcription customer_data type_of_work caller
        match_data := by
  have hval : validateOpenAIWorkType d = none := by
    unfold validateOpenAIWorkType
    rw [h1]
    simp [h2]
  have hloop : determine_type_of_work_with_openai (LlmAttempt.parsed d :: rest) = none := by
    show openaiAttemptLoop (LlmAttempt.parsed d :: rest) 3 = none
    show validateOpenAIWorkType d = none
    exact hval
  refine ⟨hloop, ?_, rfl⟩
  unfold determine_type_of_work
  cases useLlm <;> simp [hloop]

/-- Witness for C7: the spec's `"NotARealService"` value at concrete inputs. -/
theorem c7_invalid_work_type_witness :
    dget [("typeOfWork", vStr "NotARealService")] "typeOfWork" =
      some (vStr "NotARealService") ∧
    "NotARealService" ∉ TORUABI_SERVICES ∧
    determine_type_of_work "ummistus korteris" true true
      [LlmAttempt.parsed [("typeOfWork", vStr "NotARealService")]] =
      (determine_type_of_work_with_keywords "ummistus korteris", none) :=
  ⟨rfl, by decide,
   (c7_invalid_work_type_discards_extraction
     [("typeOfWork", vStr "NotARealService")] "NotARealService" []
     "ummistus korteris" "caller" [] "Muu" true true none rfl (by decide)).2.1⟩

/-! # Contact-name company leak (C8) and payload determinism (C9) -/

/-- C8 as evaluated on the failing input: for the transcript
`"mina olen Acme"` with a customer record whose company name is `"Acme"`, the
extracted contact first name IS the company name (the self-identification
scan runs after the company-name rejection check,
`create-order/main.py:449-463` vs `426-430`), contradicting the rejection the
claim (and the source's own comment) describes. -/
theorem c8_company_name_used_as_person_name :
    (extract_contact_details "mina olen Acme" [("name", vStr "Acme")]
      "5550000" none).firstName = "Acme" ∧
    dgetStrD [("name", vStr "Acme")] "name" "" = "Acme" ∧
    ("Acme" : String) ≠ "Unknown" :=
  ⟨rfl, rfl, by decide⟩

/-- C9: the order payload is a function of (transcript, customer data,
customer id, caller, transcript file, work type, match data) alone — two runs
with different clock readings agree on every field except the
timestamp-derived `order.date`, `order.plannedWorkDuration`,
`metadata.callTimestamp` and `metadata.transcriptionTimestamp` (here with the
LLM path disabled, as the claim states). -/
theorem c9_payload_timestamp_independence
    (transcription : String) (customer_data : Dict) (customer_id : PyVal)
    (caller transcript_file type_of_work : String) (match_data : Option Dict)
    (n1 d1 n2 d2 : String) :
    stripTimestampFields (buildOrderPayload transcription customer_data
      customer_id caller transcript_file type_of_work none false match_data n1 d1) =
    stripTimestampFields (buildOrderPayload transcription customer_data
      customer_id caller transcript_file type_of_work none false match_data n2 d2) := rfl

/-! # The regex extractor always produces a customer type (C10) -/

theorem dget_append_of_keys_ne (xs rest : Dict) (k : String)
    (h : ∀ kv ∈ xs, kv.1 ≠ k) : dget (xs ++ rest) k = dget rest k := by
  induction xs with
  | nil => rfl
  | cons kv tail ih =>
      obtain ⟨a, b⟩ := kv
      rw [List.cons_append]
      show (if a = k then some b else dget (tail ++ rest) k) = dget rest k
      rw [if_neg (h (a, b) (List.mem_cons_self _ _)),
        ih fun kv' h' => h kv' (List.mem_cons_of_mem _ h')]

theorem mem_optEntry_key (k : String) (v : Option String) (kv : String × PyVal)
    (h : kv ∈ optEntry k v) : kv.1 = k := by
  cases v with
  | none => simp [optEntry] at h
  | some s =>
      simp [optEntry] at h
      simp [h]

theorem dkeys_optEntry_sublist (k : String) (v : Option String) :
    List.Sublist (dkeys (optEntry k v)) [k] := by
  cases v with
  | none => exact List.nil_sublist _
  | some s => exact List.Sublist.refl _

/-- The shape of the regex extractor's result: five conditional entries
followed by the always-present customer type. -/
theorem extract_regex_shape (t : String) :
    extract_customer_info_with_regex t =
      (optEntry "phoneNumber" (bestPhone (refindall0 false phonePat t)) ++
       optEntry "email" (refindall0 false emailPat t).head? ++
       optEntry "companyName"
         ((companyMatches t).head?.map fun c => collapseWs (pyStrip c)) ++
       optEntry "companyRegCode" (refindall0 false regCodePat t).head? ++
       optEntry "name"
         ((refindall1 false namePatMC t).head?.map fun n => collapseWs (pyStrip n))) ++
      [("customerType", vStr (regexCustomerType t))] := rfl

theorem nodup_dkeys_extract_regex (t : String) :
    (dkeys (extract_customer_info_with_regex t)).Nodup := by
  have hsub : List.Sublist (dkeys (extract_customer_info_with_regex t))
      ["phoneNumber", "email", "companyName", "companyRegCode", "name",
       "customerType"] := by
    rw [extract_regex_shape]
    show List.Sublist (dkeys _)
      (((((["phoneNumber"] ++ ["email"]) ++ ["companyName"]) ++ ["companyRegCode"]) ++
        ["name"]) ++ ["customerType"])
    simp only [dkeys, List.map_append]
    exact List.Sublist.append
      (List.Sublist.append
        (List.Sublist.append
          (List.Sublist.append
            (List.Sublist.append (dkeys_optEntry_sublist _ _) (dkeys_optEntry_sublist _ _))
            (dkeys_optEntry_sublist _ _))
          (dkeys_optEntry_sublist _ _))
        (dkeys_optEntry_sublist _ _))
      (List.Sublist.refl _)
  exact hsub.nodup (by decide)

/-- C10: the regex extractor's result always contains `customerType`, whose
value is `"ETTEVÕTE"` exactly when company-indicator hits strictly exceed
personal-indicator hits or a company-suffix match exists (else
`"ERAKLIENT"`); hence the result is never empty, and the merged lookup
criteria always carry a `customerType` whatever the LLM produced. -/
theorem c10_regex_always_customer_type (t : String) :
    dget (extract_customer_info_with_regex t) "customerType" =
      some (vStr (regexCustomerType t)) ∧
    (regexCustomerType t = "ERAKLIENT" ∨ regexCustomerType t = "ETTEVÕTE") ∧
    (regexCustomerType t = "ETTEVÕTE" ↔
      (companyIndicatorCount t > personalIndicatorCount t ∨ companyMatches t ≠ [])) ∧
    extract_customer_info_with_regex t ≠ [] ∧
    (∀ (llmRaw : Dict) (llm_primary : Bool) (caller : String),
      dget (finalLookupCriteria (extract_customer_info_with_regex t)
        (openaiFilter llmRaw) llm_primary caller) "customerType" ≠ none) := by
  have hkeys : ∀ kv ∈
      (optEntry "phoneNumber" (bestPhone (refindall0 false phonePat t)) ++
       optEntry "email" (refindall0 false emailPat t).head? ++
       optEntry "companyName"
         ((companyMatches t).head?.map fun c => collapseWs (pyStrip c)) ++
       optEntry "companyRegCode" (refindall0 false regCodePat t).head? ++
       optEntry "name"
         ((refindall1 false namePatMC t).head?.map fun n => collapseWs (pyStrip n))),
      kv.1 ≠ "customerType" := by
    intro kv hm
    simp only [List.mem_append] at hm
    rcases hm with ((((h | h) | h) | h) | h) <;>
      rw [mem_optEntry_key _ _ _ h] <;> decide
  have h1 : dget (extract_customer_info_with_regex t) "customerType" =
      some (vStr (regexCustomerType t)) := by
    rw [extract_regex_shape, dget_append_of_keys_ne _ _ _ hkeys]
    rfl
  have h2 : regexCustomerType t = "ERAKLIENT" ∨ regexCustomerType t = "ETTEVÕTE" := by
    unfold regexCustomerType
    split
    · exact Or.inr rfl
    · exact Or.inl rfl
  have h3 : regexCustomerType t = "ETTEVÕTE" ↔
      (companyIndicatorCount t > personalIndicatorCount t ∨ companyMatches t ≠ []) := by
    unfold regexCustomerType
    split
    · rename_i hc
      exact ⟨fun _ => hc, fun _ => rfl⟩
    · rename_i hc
      constructor
      · intro he
        exact absurd he (by decide)
      · intro hcc
        exact absurd hcc hc
  refine ⟨h1, h2, h3, ?_, ?_⟩
  · intro he
    rw [he] at h1
    exact Option.noConfusion h1
  · intro llmRaw llm_primary caller
    have hP : ∃ v, dget (mergeCriteria (extract_customer_info_with_regex t)
        (openaiFilter llmRaw) llm_primary) "customerType" = some v ∧
        isPyNone v = false := by
      unfold mergeCriteria
      split
      · apply dget_dunion_keep_nonnull
        · exact ⟨vStr (regexCustomerType t), h1, rfl⟩
        · intro kv hm _
          exact isPyNone_false_of_isNullish_false _
            (isNullish_false_of_mem_openaiFilter _ _ hm)
      · exact ⟨vStr (regexCustomerType t),
          dget_dunion_nodup _ _ _ _ (nodup_dkeys_extract_regex t) h1, rfl⟩
    obtain ⟨v, hv, hnn⟩ := hP
    have hB := dget_backfillPhone_of_some _ caller _ _ hv
    have hfin := dget_filter_pos (fun kv => !isPyNone kv.2) _ "customerType" v hB
      (by show (!isPyNone v) = true; rw [hnn]; rfl)
    show dget (removeNoneValues _) "customerType" ≠ none
    unfold removeNoneValues
    rw [hfin]
    exact fun h => Option.noConfusion h

/-- Witness for C10 at a concrete company transcript: the extractor reports
`ETTEVÕTE` and the merged criteria carry it. -/
theorem c10_regex_always_customer_type_witness :
    dget (extract_customer_info_with_regex "Helistab firma esindaja")
      "customerType" =
      some (vStr (regexCustomerType "Helistab firma esindaja")) ∧
    regexCustomerType "Helistab firma esindaja" = "ETTEVÕTE" ∧
    dget (finalLookupCriteria
      (extract_customer_info_with_regex "Helistab firma esindaja")
      (openaiFilter []) false "555") "customerType" ≠ none :=
  ⟨(c10_regex_always_customer_type "Helistab firma esindaja").1, by rfl,
   (c10_regex_always_customer_type "Helistab firma esindaja").2.2.2.2 [] false "555"⟩
